import Mathlib

/-!
# PAL TV output (`libs/tv/tv.c`): line sequencer and pulse state machine

A shallow embedding of the timer interrupt handler `TVTIMER_IRQHandler`, of the
line predicates `tvIsVideo`, `tvIsSync1Long`, `tvIsSync2Long`, of `setTimer`,
of `tv_start_line_video` and of the configuration entry point `tv_setup_pal`.

* C `int` values (`tvCurrentLine`, `lineIdx`) are `Int`; `unsigned short` and
  `unsigned int` values are `Nat`, with the reductions modulo `2^32` and `2^16`
  written where the C code performs them.
* The module's global variables are the fields of `Globals`.
* Calls into the hardware layer and stores to `tvState` are recorded, in program
  order, as a list of `Effect`s returned next to the new globals.
-/

namespace TV

/-! ## Constants (`#define`s of tv.c) -/

/-- Amount of extra height that is just blank. -/
def PAL_VBLANK : Int := 25
def PAL_LINE : Nat := 64
def PAL_HALF_LINE : Nat := PAL_LINE / 2
def PAL_PULSE_SHORT_ON : Nat := 5
def PAL_PULSE_LONG_ON : Nat := 27
def PAL_PULSE_SHORT_OFF : Nat := PAL_HALF_LINE - PAL_PULSE_SHORT_ON
def PAL_PULSE_LONG_OFF : Nat := PAL_HALF_LINE - PAL_PULSE_LONG_ON
def PAL_FRONTPORCH : Nat := 8
def PAL_BACKPORCH : Nat := 7

/-! ## Data model -/

/-- The enumeration `TvState`, in declaration order. -/
inductive TvState where
  | TVS_SYNC1_START
  | TVS_SYNC1_END
  | TVS_VID_START
  | TVS_VID_VIDEO
  | TVS_VID_BACKPORCH
  | TVS_SYNC2_START
  | TVS_SYNC2_END
  deriving DecidableEq, Repr

/-- The two pin modes the module switches the video pin between. -/
inductive JshPinState where
  | JSHPINSTATE_GPIO_OUT
  | JSHPINSTATE_AF_OUT
  deriving DecidableEq, Repr

/-- The global variables of tv.c. `tvWidth`, `tvHeight` and `ticksPerLine` are
`unsigned short`, `tvCurrentLine` is `int`, the pins are pin numbers and
`tvPixelPtr` is the address of the first framebuffer byte. -/
structure Globals where
  tvWidth : Nat
  tvHeight : Nat
  tvPinVideo : Nat
  tvPinSync : Nat
  tvPixelPtr : Nat
  tvCurrentLine : Int
  ticksPerLine : Nat
  tvState : TvState
  deriving DecidableEq, Repr

/-- What one handler run does to the outside world, one constructor per call or
register store of the source, plus the stores to `tvState`. -/
inductive Effect where
  /-- The call `jshInterruptOff()`. -/
  | interruptOff
  /-- The call `jshInterruptOn()`. -/
  | interruptOn
  /-- The call `TIM_ClearITPendingBit(TVTIMER, TIM_IT_Update)`. -/
  | clearITPending
  /-- The store `TVTIMER->ARR = v`. -/
  | writeARR (v : Nat)
  /-- The call `jshPinSetValue(pin, v)`. -/
  | pinSetValue (pin : Nat) (v : Nat)
  /-- The call `jshPinSetState(pin, s)`. -/
  | pinSetState (pin : Nat) (s : JshPinState)
  /-- The store `CCR &= ~DMA_CCR5_EN` (builds without `STM32F4`). -/
  | dmaDisable
  /-- The store of the transfer length to `NDTR` / `CNDTR`. -/
  | dmaWriteCount (bytes : Nat)
  /-- The store of the source address to `M0AR` / `CMAR`. -/
  | dmaWriteAddr (addr : Nat)
  /-- The call `DMA_ClearFlag(DMA_TVSPI_TX, DMA_TVSPI_FLAG_TCIF)` (`STM32F4`). -/
  | dmaClearFlag
  /-- The call `DMA_Cmd(.., ENABLE)` resp. the store `CCR |= DMA_CCR5_EN`. -/
  | dmaEnable
  /-- The assignment `tvState = s`. -/
  | storeState (s : TvState)
  deriving DecidableEq, Repr

/-! ## The functions of tv.c -/

/-- `sync_start`: drive the sync pin low. -/
def sync_start (g : Globals) : List Effect :=
  [Effect.pinSetValue g.tvPinSync 0]

/-- `sync_end`: drive the sync pin high. -/
def sync_end (g : Globals) : List Effect :=
  [Effect.pinSetValue g.tvPinSync 1]

/-- The first assignment of `tv_start_line_video`: the line within its field,
counted from the first mapped line. -/
def lineInField (tvCurrentLine : Int) : Int :=
  if tvCurrentLine ≤ 313 then tvCurrentLine - (5 + PAL_VBLANK)
  else tvCurrentLine - (317 + PAL_VBLANK)

/-- The expression `lineIdx*tvHeight/270`: an `int` product and a C division,
which truncates toward zero. -/
def rowIndex (lineIdx : Int) (tvHeight : Nat) : Int :=
  Int.tdiv (lineIdx * (tvHeight : Int)) 270

/-- The expression `tvWidth>>3`, the bytes of one row. -/
def rowBytes (tvWidth : Nat) : Nat :=
  tvWidth >>> 3

/-- The expression `((uint32_t)lineIdx)*NDTR`, a product of 32-bit unsigned
values, where `NDTR` was just loaded with `tvWidth>>3`. -/
def rowOffset (row : Int) (tvWidth : Nat) : Nat :=
  (row % 2 ^ 32).toNat * rowBytes tvWidth % 2 ^ 32

/-- `tv_start_line_video`. `stm32f4` selects the branch of `#ifdef STM32F4`. The
address stored is `(uint32_t)(tvPixelPtr + offset)`, the sum reduced to 32
bits. -/
def tv_start_line_video (stm32f4 : Bool) (g : Globals) : List Effect :=
  let lineIdx := lineInField g.tvCurrentLine
  if 0 ≤ lineIdx ∧ lineIdx < 270 then
    let row := rowIndex lineIdx g.tvHeight
    [Effect.pinSetState g.tvPinVideo JshPinState.JSHPINSTATE_AF_OUT] ++
      (if stm32f4 then
        [Effect.dmaWriteCount (rowBytes g.tvWidth),
         Effect.dmaWriteAddr ((g.tvPixelPtr + rowOffset row g.tvWidth) % 2 ^ 32),
         Effect.dmaClearFlag,
         Effect.dmaEnable]
      else
        [Effect.dmaDisable,
         Effect.dmaWriteCount (rowBytes g.tvWidth),
         Effect.dmaWriteAddr ((g.tvPixelPtr + rowOffset row g.tvWidth) % 2 ^ 32),
         Effect.dmaEnable])
  else []

/-- The value `(uint16_t)(ticksPerLine * mSec / 64)` of `setTimer`, the product
being taken in `unsigned int`. -/
def timerReload (ticksPerLine mSec : Nat) : Nat :=
  (ticksPerLine * mSec % 2 ^ 32) / 64 % 2 ^ 16

/-- `setTimer`: store the scaled duration to the reload register. -/
def setTimer (g : Globals) (mSec : Nat) : List Effect :=
  [Effect.writeARR (timerReload g.ticksPerLine mSec)]

/-- `tvIsVideo`, as a function of the global it reads. -/
def tvIsVideo (tvCurrentLine : Int) : Bool :=
  (decide (tvCurrentLine ≥ 5) && decide (tvCurrentLine ≤ 309)) ||
    (decide (tvCurrentLine ≥ 317) && decide (tvCurrentLine ≤ 622))

/-- `tvIsSync1Long`, as a function of the global it reads. -/
def tvIsSync1Long (tvCurrentLine : Int) : Bool :=
  decide (tvCurrentLine ≤ 2) || decide (tvCurrentLine = 313) || decide (tvCurrentLine = 314)

/-- `tvIsSync2Long`, as a function of the global it reads. -/
def tvIsSync2Long (tvCurrentLine : Int) : Bool :=
  decide (tvCurrentLine ≤ 1) || (decide (tvCurrentLine ≥ 312) && decide (tvCurrentLine ≤ 314))

/-- The `switch (tvState)` of the handler: the globals after it and the effects
it performs. `TVS_VID_VIDEO` takes the `default:` label, which shares its body
with `TVS_SYNC2_END`. -/
def handlerSwitch (stm32f4 : Bool) (g : Globals) : Globals × List Effect :=
  match g.tvState with
  | TvState.TVS_SYNC1_START =>
    ({ g with tvState := TvState.TVS_SYNC1_END },
      (if tvIsVideo g.tvCurrentLine || !tvIsSync1Long g.tvCurrentLine then
          setTimer g PAL_PULSE_SHORT_ON
        else
          setTimer g PAL_PULSE_LONG_ON) ++
      sync_start g ++
      [Effect.storeState TvState.TVS_SYNC1_END])
  | TvState.TVS_SYNC1_END =>
    if tvIsVideo g.tvCurrentLine then
      ({ g with tvState := TvState.TVS_VID_START },
        setTimer g PAL_FRONTPORCH ++
        [Effect.storeState TvState.TVS_VID_START] ++
        sync_end g)
    else
      ({ g with tvState := TvState.TVS_SYNC2_START },
        (if tvIsSync1Long g.tvCurrentLine then
            setTimer g PAL_PULSE_LONG_OFF
          else
            setTimer g PAL_PULSE_SHORT_OFF) ++
        [Effect.storeState TvState.TVS_SYNC2_START] ++
        sync_end g)
  | TvState.TVS_VID_START =>
    ({ g with tvState := TvState.TVS_VID_BACKPORCH },
      setTimer g (PAL_LINE - (PAL_PULSE_SHORT_ON + PAL_FRONTPORCH + PAL_BACKPORCH)) ++
      (if g.tvCurrentLine > PAL_VBLANK then tv_start_line_video stm32f4 g else []) ++
      [Effect.storeState TvState.TVS_VID_BACKPORCH])
  | TvState.TVS_VID_BACKPORCH =>
    ({ g with tvState := TvState.TVS_SYNC1_START },
      setTimer g PAL_BACKPORCH ++
      [Effect.pinSetState g.tvPinVideo JshPinState.JSHPINSTATE_GPIO_OUT] ++
      [Effect.storeState TvState.TVS_SYNC1_START])
  | TvState.TVS_SYNC2_START =>
    ({ g with tvState := TvState.TVS_SYNC2_END },
      (if tvIsSync2Long g.tvCurrentLine then
          setTimer g PAL_PULSE_LONG_ON
        else
          setTimer g PAL_PULSE_SHORT_ON) ++
      sync_start g ++
      [Effect.storeState TvState.TVS_SYNC2_END])
  | TvState.TVS_SYNC2_END | TvState.TVS_VID_VIDEO =>
    ({ g with tvState := TvState.TVS_SYNC1_START },
      (if tvIsSync1Long g.tvCurrentLine then
          setTimer g PAL_PULSE_LONG_OFF
        else
          setTimer g PAL_PULSE_SHORT_OFF) ++
      sync_end g ++
      [Effect.storeState TvState.TVS_SYNC1_START])

/-- The statement `if (tvCurrentLine++ > 624) tvCurrentLine=0;`: the comparison
reads the value before the increment. When that value is at most 624 the
increment cannot leave the range of `int`, otherwise the result is 0. -/
def countLine (tvCurrentLine : Int) : Int :=
  if tvCurrentLine > 624 then 0 else tvCurrentLine + 1

/-- `TVTIMER_IRQHandler`: one run of the interrupt handler. -/
def TVTIMER_IRQHandler (stm32f4 : Bool) (g : Globals) : Globals × List Effect :=
  let r := handlerSwitch stm32f4 g
  let g1 := r.1
  let g2 :=
    if g1.tvState = TvState.TVS_SYNC1_START then
      { g1 with tvCurrentLine := countLine g1.tvCurrentLine }
    else g1
  (g2, [Effect.interruptOff, Effect.clearITPending] ++ r.2 ++ [Effect.interruptOn])

/-! ## Running the handler, and reading its effects -/

/-- The globals after one handler run. -/
def step (stm32f4 : Bool) (g : Globals) : Globals :=
  (TVTIMER_IRQHandler stm32f4 g).1

/-- The effects of one handler run. -/
def effects (stm32f4 : Bool) (g : Globals) : List Effect :=
  (TVTIMER_IRQHandler stm32f4 g).2

/-- The globals after `k` consecutive handler runs. -/
def run (stm32f4 : Bool) : Nat → Globals → Globals
  | 0, g => g
  | k + 1, g => run stm32f4 k (step stm32f4 g)

/-- The values stored to the timer reload register, in order. -/
def arrWrites : List Effect → List Nat
  | [] => []
  | Effect.writeARR v :: es => v :: arrWrites es
  | _ :: es => arrWrites es

/-- The `(pin, level)` pairs passed to `jshPinSetValue`, in order. -/
def pinValueWrites : List Effect → List (Nat × Nat)
  | [] => []
  | Effect.pinSetValue p v :: es => (p, v) :: pinValueWrites es
  | _ :: es => pinValueWrites es

/-- The `(pin, mode)` pairs passed to `jshPinSetState`, in order. -/
def pinStateWrites : List Effect → List (Nat × JshPinState)
  | [] => []
  | Effect.pinSetState p s :: es => (p, s) :: pinStateWrites es
  | _ :: es => pinStateWrites es

/-- The values assigned to `tvState`, in order. -/
def stateStores : List Effect → List TvState
  | [] => []
  | Effect.storeState s :: es => s :: stateStores es
  | _ :: es => stateStores es

/-- The power-on values of the mutable globals (`tvState = TVS_SYNC1_START`,
`tvCurrentLine = 0`) over a given configuration. -/
def initial (g : Globals) : Globals :=
  { g with tvState := TvState.TVS_SYNC1_START, tvCurrentLine := 0 }

/-- A concrete configuration: 128x96 pixels, 4608 timer ticks per line. -/
def sample : Globals :=
  { tvWidth := 128, tvHeight := 96, tvPinVideo := 7, tvPinSync := 6,
    tvPixelPtr := 536870912, tvCurrentLine := 0, ticksPerLine := 4608,
    tvState := TvState.TVS_SYNC1_START }

/-- The globals `g` with the phase and the line index replaced. -/
def atPhase (g : Globals) (s : TvState) (n : Int) : Globals :=
  { g with tvState := s, tvCurrentLine := n }

/-- What the pulse table tabulates about one handler run: the resulting phase,
the reload-register stores and the `jshPinSetValue` calls. -/
def observe (stm32f4 : Bool) (g : Globals) : TvState × List Nat × List (Nat × Nat) :=
  ((step stm32f4 g).tvState, arrWrites (effects stm32f4 g), pinValueWrites (effects stm32f4 g))

/-- The number of visible lines among the line indices 0..624. -/
def visibleLineCount : Nat :=
  ((List.range 625).filter (fun k => tvIsVideo (k : Int))).length

/-- The register stores that arm one transfer of `len` bytes from `addr`, in the
order of the selected `#ifdef STM32F4` branch. -/
def armTransfer (stm32f4 : Bool) (len addr : Nat) : List Effect :=
  if stm32f4 then
    [Effect.dmaWriteCount len, Effect.dmaWriteAddr addr, Effect.dmaClearFlag, Effect.dmaEnable]
  else
    [Effect.dmaDisable, Effect.dmaWriteCount len, Effect.dmaWriteAddr addr, Effect.dmaEnable]

/-- Modelled from the spec: the byte size of the `tvWidth` x `tvHeight` 1-bit
buffer that the graphics-buffer provider `jswrap_graphics_createArrayBuffer`
(not part of tv.c) allocates, `tvWidth/8` bytes per row. -/
def framebufferBytes (tvWidth tvHeight : Nat) : Nat :=
  (tvWidth / 8) * tvHeight

/-- The sample configuration at the start of the video phase of line 160. -/
def sampleLine160 : Globals :=
  atPhase sample TvState.TVS_VID_START 160

/-! ## Configuration: `tv_setup_pal` -/

/-- The calls `tv_setup_pal` makes into the hardware layer, the interpreter and
the peripheral library, one constructor per call of the source. -/
inductive SetupCall where
  /-- The call `jshPinAnalogOutput(pin, 0.5, freq)`. -/
  | jshPinAnalogOutput (pin : Nat) (freq : Nat)
  /-- The call `jswrap_graphics_createArrayBuffer(w, h, bpp, 0)`. -/
  | createArrayBuffer (w h bpp : Nat)
  /-- The call `jsvObjectGetChild(gfx, "buffer", 0)`. -/
  | jsvObjectGetChild
  /-- The call `jsvGetArrayBufferBackingString(buffer)`. -/
  | jsvGetArrayBufferBackingString
  /-- A call of `jsvUnLock`. -/
  | jsvUnLock
  /-- The call `jshSPIInitInfo(&inf)`. -/
  | jshSPIInitInfo
  /-- The call `jshPinOutput(pin, v)`. -/
  | jshPinOutput (pin : Nat) (v : Nat)
  /-- The call `jshPinSetValue(pin, v)`. -/
  | jshPinSetValue (pin : Nat) (v : Nat)
  /-- The call `jshSPISetup(TVSPIDEVICE, &inf)` with `inf.baudRate = baud`,
  `inf.baudRateSpec = SPIB_MINIMUM`, `inf.spiMSB = false`, `inf.pinMOSI = mosi`. -/
  | jshSPISetup (baud : Int) (mosi : Nat)
  /-- The call `SPI_I2S_ITConfig(TVSPI, SPI_I2S_IT_RXNE, DISABLE)`. -/
  | spiRxInterruptDisable
  /-- The call enabling the clock of the DMA controller. -/
  | dmaClockEnable
  /-- The call `DMA_StructInit`. -/
  | dmaStructInit
  /-- The call `DMA_DeInit(DMA_TVSPI_TX)`. -/
  | dmaDeInit
  /-- The call `DMA_Init` with the memory base address `(u32)tvPixelPtr` and the
  buffer size. -/
  | dmaInit (memBase : Nat) (bufferSize : Nat)
  /-- The call `DMA_Cmd(DMA_TVSPI_TX, ENABLE)`. -/
  | dmaCmdEnable
  /-- The call `SPI_I2S_DMACmd(TVSPI, SPI_I2S_DMAReq_Tx, ENABLE)`. -/
  | spiDmaRequestEnable
  /-- The call `RCC_APB1PeriphClockCmd(RCC_APB1Periph_TVTIMER, ENABLE)`. -/
  | timerClockEnable
  /-- The call `TIM_TimeBaseStructInit`. -/
  | timeBaseStructInit
  /-- The call `jshGetTimerFreq(TVTIMER)`. -/
  | jshGetTimerFreq
  /-- The call `TIM_TimeBaseInit` with the prescaler and the period. -/
  | timeBaseInit (prescaler : Nat) (period : Nat)
  /-- The call `NVIC_Init` enabling the channel `TVTIMER_IRQn`. -/
  | nvicInit
  /-- The call `TIM_ITConfig(TVTIMER, TIM_IT_Update, ENABLE)`. -/
  | timerInterruptEnable
  /-- The call `TIM_Cmd(TVTIMER, ENABLE)`. -/
  | timerEnable
  deriving DecidableEq, Repr

/-- The expression `(unsigned short)((width+7)&~7)` on a 32-bit `int`: the sum
wraps in 32 bits, `~7` is the bit pattern `0xFFFFFFF8`, and the conversion keeps
the low 16 bits. -/
def roundWidth (width : Int) : Nat :=
  ((((width % 2 ^ 32).toNat + 7) % 2 ^ 32) &&& 4294967288) % 2 ^ 16

/-- The value of a product of two `int`s: the low 32 bits, read as a signed
number. -/
def wrapInt32 (x : Int) : Int :=
  (x + 2 ^ 31) % 2 ^ 32 - 2 ^ 31

/-- The expression `tvWidth * 1000000 / 52` assigned to `inf.baudRate`, an `int`
product and a C division. -/
def spiBaudRate (tvWidth : Nat) : Int :=
  Int.tdiv (wrapInt32 ((tvWidth : Int) * 1000000)) 52

/-- The expression `(unsigned short)(jshGetTimerFreq(TVTIMER) / 15625)`, with
`timerFreq` the `unsigned int` that `jshGetTimerFreq` returns. -/
def ticksPerLineOf (timerFreq : Nat) : Nat :=
  (timerFreq % 2 ^ 32) / 15625 % 2 ^ 16

/-- What `tv_setup_pal` returns and leaves behind: the returned `JsVar*` (`none`
for the null pointer), the globals and the calls made, in order. -/
structure SetupResult where
  handle : Option Nat
  globals : Globals
  calls : List SetupCall
  deriving DecidableEq, Repr

/-- `tv_setup_pal`. The results of the collaborators are parameters: `timer` is
the `JshPinFunction` that `jshPinAnalogOutput` returns, `gfx` is the object that
`jswrap_graphics_createArrayBuffer` returns (`none` for null) together with the
address `(char*)(ab+1)` of its pixel data, and `timerFreq` is what
`jshGetTimerFreq` returns. Both `#ifdef STM32F4` branches make the same calls,
with different DMA settings. -/
def tv_setup_pal (g : Globals) (pinVideo pinSync : Nat) (width height : Int)
    (timer : Nat) (gfx : Option (Nat × Nat)) (timerFreq : Nat) : SetupResult :=
  let g1 : Globals :=
    { g with tvWidth := roundWidth width, tvHeight := (height % 2 ^ 16).toNat,
             tvPinVideo := pinVideo, tvPinSync := pinSync }
  let c1 := [SetupCall.jshPinAnalogOutput g1.tvPinSync 15625]
  if timer = 0 then
    { handle := none, globals := g1, calls := c1 }
  else
    let c2 := c1 ++ [SetupCall.createArrayBuffer g1.tvWidth g1.tvHeight 1]
    match gfx with
    | none => { handle := none, globals := g1, calls := c2 }
    | some (handle, pixels) =>
      let g2 : Globals := { g1 with tvPixelPtr := pixels }
      let g3 : Globals := { g2 with ticksPerLine := ticksPerLineOf timerFreq }
      { handle := some handle, globals := g3,
        calls := c2 ++
          [SetupCall.jsvObjectGetChild, SetupCall.jsvGetArrayBufferBackingString,
           SetupCall.jsvUnLock, SetupCall.jsvUnLock,
           SetupCall.jshSPIInitInfo,
           SetupCall.jshPinOutput g2.tvPinSync 0,
           SetupCall.jshPinSetValue g2.tvPinVideo 0,
           SetupCall.jshSPISetup (spiBaudRate g2.tvWidth) g2.tvPinVideo,
           SetupCall.spiRxInterruptDisable,
           SetupCall.dmaClockEnable,
           SetupCall.dmaStructInit,
           SetupCall.dmaDeInit,
           SetupCall.dmaInit (g2.tvPixelPtr % 2 ^ 32) (rowBytes g2.tvWidth),
           SetupCall.dmaCmdEnable,
           SetupCall.spiDmaRequestEnable,
           SetupCall.timerClockEnable,
           SetupCall.timeBaseStructInit,
           SetupCall.jshGetTimerFreq,
           SetupCall.timeBaseInit 0 (g3.ticksPerLine % 2 ^ 16),
           SetupCall.nvicInit,
           SetupCall.timerInterruptEnable,
           SetupCall.timerEnable] }

/-- Modelled from the spec: which calls of `tv_setup_pal` set up a pin, a
timer, the SPI or the DMA. `jshPinAnalogOutput`, whose body is not part of
tv.c, is the reservation of the line-rate timer for the sync pin; the calls
into the interpreter (buffer allocation, `jsvObjectGetChild`,
`jsvGetArrayBufferBackingString`, `jsvUnLock`), the calls that only fill a
structure in memory and the frequency query touch no peripheral. -/
def isPeripheralSetup : SetupCall → Bool
  | SetupCall.createArrayBuffer _ _ _ => false
  | SetupCall.jsvObjectGetChild => false
  | SetupCall.jsvGetArrayBufferBackingString => false
  | SetupCall.jsvUnLock => false
  | SetupCall.jshSPIInitInfo => false
  | SetupCall.dmaStructInit => false
  | SetupCall.timeBaseStructInit => false
  | SetupCall.jshGetTimerFreq => false
  | _ => true

/-- A sample call of `tv_setup_pal` in which the timer is reserved (`timer = 1`)
and the buffer provider returns null. -/
def sampleAllocationFailure : SetupResult :=
  tv_setup_pal sample 7 6 128 96 1 none 72000000

/-! ## Durations and the sync level -/

/-- The argument of the one `setTimer` call that a handler run makes, read off
the `switch (tvState)` of `TVTIMER_IRQHandler`. -/
def handlerDuration (g : Globals) : Nat :=
  match g.tvState with
  | TvState.TVS_SYNC1_START =>
    if tvIsVideo g.tvCurrentLine || !tvIsSync1Long g.tvCurrentLine then PAL_PULSE_SHORT_ON
    else PAL_PULSE_LONG_ON
  | TvState.TVS_SYNC1_END =>
    if tvIsVideo g.tvCurrentLine then PAL_FRONTPORCH
    else if tvIsSync1Long g.tvCurrentLine then PAL_PULSE_LONG_OFF
    else PAL_PULSE_SHORT_OFF
  | TvState.TVS_VID_START => PAL_LINE - (PAL_PULSE_SHORT_ON + PAL_FRONTPORCH + PAL_BACKPORCH)
  | TvState.TVS_VID_BACKPORCH => PAL_BACKPORCH
  | TvState.TVS_SYNC2_START =>
    if tvIsSync2Long g.tvCurrentLine then PAL_PULSE_LONG_ON else PAL_PULSE_SHORT_ON
  | TvState.TVS_SYNC2_END | TvState.TVS_VID_VIDEO =>
    if tvIsSync1Long g.tvCurrentLine then PAL_PULSE_LONG_OFF else PAL_PULSE_SHORT_OFF

/-- The durations programmed by the four handler runs of the cycle of line `n`,
started in SYNC1_START. -/
def lineDurations (stm32f4 : Bool) (g : Globals) (n : Int) : List Nat :=
  (List.range 4).map
    (fun k => handlerDuration (run stm32f4 k (atPhase g TvState.TVS_SYNC1_START n)))

/-- The sum of the durations programmed during the cycle of line `n`. -/
def lineDurationSum (stm32f4 : Bool) (g : Globals) (n : Int) : Nat :=
  (lineDurations stm32f4 g n).sum

/-- The sum of the durations programmed during one pass of the line counter,
lines 0 to 625. -/
def passDurationSum (stm32f4 : Bool) (g : Globals) : Nat :=
  ((List.range 626).map (fun (k : Nat) => lineDurationSum stm32f4 g (k : Int))).sum

/-- The level of pin `pin` after a list of effects, given its level before: the
value of the last `jshPinSetValue` call on that pin, if there is one. -/
def syncLevelAfter (pin : Nat) (level : Nat) : List Effect → Nat
  | [] => level
  | Effect.pinSetValue p v :: es => syncLevelAfter pin (if p = pin then v else level) es
  | _ :: es => syncLevelAfter pin level es

/-- One handler run on the globals paired with the level of the sync pin. -/
def stepSync (stm32f4 : Bool) (c : Globals × Nat) : Globals × Nat :=
  (step stm32f4 c.1, syncLevelAfter c.1.tvPinSync c.2 (effects stm32f4 c.1))

/-- The globals and the sync level after `k` consecutive handler runs. -/
def runSync (stm32f4 : Bool) : Nat → Globals × Nat → Globals × Nat
  | 0, c => c
  | k + 1, c => runSync stm32f4 k (stepSync stm32f4 c)

/-- The phase/line consistency of a configuration: the phase is not
`TVS_VID_VIDEO`, it is a video phase only on a visible line and a second-sync
phase only on a line that is not visible. -/
def phaseMatchesLine (g : Globals) : Prop :=
  g.tvState ≠ TvState.TVS_VID_VIDEO ∧
    ((g.tvState = TvState.TVS_VID_START ∨ g.tvState = TvState.TVS_VID_BACKPORCH) →
      tvIsVideo g.tvCurrentLine = true) ∧
    ((g.tvState = TvState.TVS_SYNC2_START ∨ g.tvState = TvState.TVS_SYNC2_END) →
      tvIsVideo g.tvCurrentLine = false)

/-- What holds of the sync level after a handler run: it is low exactly in the
two pulse-end phases, and high otherwise. -/
def syncLevelMatchesPhase (c : Globals × Nat) : Prop :=
  (c.2 = 0 ↔ (c.1.tvState = TvState.TVS_SYNC1_END ∨ c.1.tvState = TvState.TVS_SYNC2_END)) ∧
    (c.2 = 0 ∨ c.2 = 1)

/-! ## Line predicates -/

theorem tvIsVideo_iff (n : Int) :
    tvIsVideo n = true ↔ (5 ≤ n ∧ n ≤ 309) ∨ (317 ≤ n ∧ n ≤ 622) := by
  simp [tvIsVideo]

theorem tvIsSync1Long_iff (n : Int) :
    tvIsSync1Long n = true ↔ n ≤ 2 ∨ n = 313 ∨ n = 314 := by
  simp [tvIsSync1Long, or_assoc]

theorem tvIsSync2Long_iff (n : Int) :
    tvIsSync2Long n = true ↔ n ≤ 1 ∨ (312 ≤ n ∧ n ≤ 314) := by
  simp [tvIsSync2Long]

/-! ## Projections of effect lists -/

theorem arrWrites_append (a b : List Effect) :
    arrWrites (a ++ b) = arrWrites a ++ arrWrites b := by
  induction a with
  | nil => rfl
  | cons e es ih => cases e <;> simp [arrWrites, ih]

theorem pinValueWrites_append (a b : List Effect) :
    pinValueWrites (a ++ b) = pinValueWrites a ++ pinValueWrites b := by
  induction a with
  | nil => rfl
  | cons e es ih => cases e <;> simp [pinValueWrites, ih]

theorem pinStateWrites_append (a b : List Effect) :
    pinStateWrites (a ++ b) = pinStateWrites a ++ pinStateWrites b := by
  induction a with
  | nil => rfl
  | cons e es ih => cases e <;> simp [pinStateWrites, ih]

theorem stateStores_append (a b : List Effect) :
    stateStores (a ++ b) = stateStores a ++ stateStores b := by
  induction a with
  | nil => rfl
  | cons e es ih => cases e <;> simp [stateStores, ih]

theorem arrWrites_start_line_video (stm32f4 : Bool) (g : Globals) :
    arrWrites (tv_start_line_video stm32f4 g) = [] := by
  unfold tv_start_line_video
  cases stm32f4 <;> simp only [] <;> split <;> simp [arrWrites]

theorem pinValueWrites_start_line_video (stm32f4 : Bool) (g : Globals) :
    pinValueWrites (tv_start_line_video stm32f4 g) = [] := by
  unfold tv_start_line_video
  cases stm32f4 <;> simp only [] <;> split <;> simp [pinValueWrites]

theorem stateStores_start_line_video (stm32f4 : Bool) (g : Globals) :
    stateStores (tv_start_line_video stm32f4 g) = [] := by
  unfold tv_start_line_video
  cases stm32f4 <;> simp only [] <;> split <;> simp [stateStores]

theorem stateStores_vblank_guard (c : Prop) [Decidable c] (stm32f4 : Bool) (g : Globals) :
    stateStores (if c then tv_start_line_video stm32f4 g else []) = [] := by
  split
  · exact stateStores_start_line_video stm32f4 g
  · rfl

/-- Every handler run assigns `tvState` exactly once, and the value assigned is
the phase the run ends in. -/
theorem stateStores_effects (stm32f4 : Bool) (g : Globals) :
    stateStores (effects stm32f4 g) = [(step stm32f4 g).tvState] := by
  obtain ⟨w, h, pv, ps, pp, n, t, s⟩ := g
  cases s <;> cases hv : tvIsVideo n <;> cases h1 : tvIsSync1Long n <;>
    cases h2 : tvIsSync2Long n <;>
    simp [step, effects, TVTIMER_IRQHandler, handlerSwitch, setTimer,
      sync_start, sync_end, stateStores, stateStores_append, stateStores_vblank_guard,
      hv, h1, h2]

theorem arrWrites_vblank_guard (c : Prop) [Decidable c] (stm32f4 : Bool) (g : Globals) :
    arrWrites (if c then tv_start_line_video stm32f4 g else []) = [] := by
  split
  · exact arrWrites_start_line_video stm32f4 g
  · rfl

/-! ## The pulse table -/

/-- C1: for every line index `n` (in particular every `n` in 0..624) one handler
run performs the tabulated transition of its phase. SYNC1_START programs 27 when
`n` is not visible and sync1 is long, else 5, drives sync low and goes to
SYNC1_END. SYNC1_END drives sync high and, on a visible line, programs 8 and goes
to VID_START, otherwise programs 5 (sync1 long) or 27 and goes to SYNC2_START.
VID_START programs 44, leaves the sync pin alone and goes to VID_BACKPORCH.
VID_BACKPORCH programs 7, puts the video pin in plain output mode and goes to
SYNC1_START. SYNC2_START programs 27 (sync2 long) or 5, drives sync low and goes
to SYNC2_END. SYNC2_END programs 5 or 27 by the sync1 predicate, drives sync
high and goes to SYNC1_START. On line 0 the first phase programs 27. Each run
assigns `tvState` once, and only VID_START and VID_BACKPORCH call
`jshPinSetState`. -/
theorem C1_handler_performs_tabulated_transition (stm32f4 : Bool) (g : Globals) (n : Int) :
    observe stm32f4 (atPhase g TvState.TVS_SYNC1_START n) =
        (TvState.TVS_SYNC1_END,
          [timerReload g.ticksPerLine (if !tvIsVideo n && tvIsSync1Long n then 27 else 5)],
          [(g.tvPinSync, 0)]) ∧
      observe stm32f4 (atPhase g TvState.TVS_SYNC1_END n) =
        (if tvIsVideo n then
            (TvState.TVS_VID_START, [timerReload g.ticksPerLine 8], [(g.tvPinSync, 1)])
          else
            (TvState.TVS_SYNC2_START,
              [timerReload g.ticksPerLine (if tvIsSync1Long n then 5 else 27)],
              [(g.tvPinSync, 1)])) ∧
      observe stm32f4 (atPhase g TvState.TVS_VID_START n) =
        (TvState.TVS_VID_BACKPORCH, [timerReload g.ticksPerLine (64 - (5 + 8 + 7))], []) ∧
      timerReload g.ticksPerLine (64 - (5 + 8 + 7)) = timerReload g.ticksPerLine 44 ∧
      observe stm32f4 (atPhase g TvState.TVS_VID_BACKPORCH n) =
        (TvState.TVS_SYNC1_START, [timerReload g.ticksPerLine 7], []) ∧
      pinStateWrites (effects stm32f4 (atPhase g TvState.TVS_VID_BACKPORCH n)) =
        [(g.tvPinVideo, JshPinState.JSHPINSTATE_GPIO_OUT)] ∧
      observe stm32f4 (atPhase g TvState.TVS_SYNC2_START n) =
        (TvState.TVS_SYNC2_END,
          [timerReload g.ticksPerLine (if tvIsSync2Long n then 27 else 5)],
          [(g.tvPinSync, 0)]) ∧
      observe stm32f4 (atPhase g TvState.TVS_SYNC2_END n) =
        (TvState.TVS_SYNC1_START,
          [timerReload g.ticksPerLine (if tvIsSync1Long n then 5 else 27)],
          [(g.tvPinSync, 1)]) ∧
      observe stm32f4 (atPhase g TvState.TVS_SYNC1_START 0) =
        (TvState.TVS_SYNC1_END, [timerReload g.ticksPerLine 27], [(g.tvPinSync, 0)]) ∧
      (∀ s, stateStores (effects stm32f4 (atPhase g s n)) =
        [(step stm32f4 (atPhase g s n)).tvState]) ∧
      pinStateWrites (effects stm32f4 (atPhase g TvState.TVS_SYNC1_START n)) = [] ∧
      pinStateWrites (effects stm32f4 (atPhase g TvState.TVS_SYNC1_END n)) = [] ∧
      pinStateWrites (effects stm32f4 (atPhase g TvState.TVS_SYNC2_START n)) = [] ∧
      pinStateWrites (effects stm32f4 (atPhase g TvState.TVS_SYNC2_END n)) = [] := by
  refine ⟨?_, ?_, ?_, ?_, ?_, ?_, ?_, ?_, ?_, ?_, ?_, ?_, ?_, ?_⟩
  · cases hv : tvIsVideo n <;> cases hs : tvIsSync1Long n <;>
      simp [observe, step, effects, TVTIMER_IRQHandler, handlerSwitch, atPhase, setTimer,
        sync_start, arrWrites, pinValueWrites, hv, hs, PAL_PULSE_SHORT_ON, PAL_PULSE_LONG_ON]
  · cases hv : tvIsVideo n <;> cases hs : tvIsSync1Long n <;>
      simp [observe, step, effects, TVTIMER_IRQHandler, handlerSwitch, atPhase, setTimer,
        sync_end, arrWrites, pinValueWrites, hv, hs, PAL_PULSE_SHORT_OFF, PAL_PULSE_LONG_OFF,
        PAL_HALF_LINE, PAL_LINE, PAL_PULSE_SHORT_ON, PAL_PULSE_LONG_ON, PAL_FRONTPORCH]
  · by_cases hb : n > PAL_VBLANK <;>
      simp [observe, step, effects, TVTIMER_IRQHandler, handlerSwitch, atPhase, setTimer,
        arrWrites, pinValueWrites, arrWrites_append, pinValueWrites_append,
        arrWrites_start_line_video, pinValueWrites_start_line_video, hb,
        PAL_LINE, PAL_PULSE_SHORT_ON, PAL_FRONTPORCH, PAL_BACKPORCH]
  · rfl
  · simp [observe, step, effects, TVTIMER_IRQHandler, handlerSwitch, atPhase, setTimer,
      arrWrites, pinValueWrites, PAL_BACKPORCH]
  · simp [effects, TVTIMER_IRQHandler, handlerSwitch, atPhase, setTimer, pinStateWrites]
  · cases hs : tvIsSync2Long n <;>
      simp [observe, step, effects, TVTIMER_IRQHandler, handlerSwitch, atPhase, setTimer,
        sync_start, arrWrites, pinValueWrites, hs, PAL_PULSE_SHORT_ON, PAL_PULSE_LONG_ON]
  · cases hs : tvIsSync1Long n <;>
      simp [observe, step, effects, TVTIMER_IRQHandler, handlerSwitch, atPhase, setTimer,
        sync_end, arrWrites, pinValueWrites, hs, PAL_PULSE_SHORT_OFF, PAL_PULSE_LONG_OFF,
        PAL_HALF_LINE, PAL_LINE, PAL_PULSE_SHORT_ON, PAL_PULSE_LONG_ON]
  · simp [observe, step, effects, TVTIMER_IRQHandler, handlerSwitch, atPhase, setTimer,
      sync_start, arrWrites, pinValueWrites, tvIsVideo, tvIsSync1Long, PAL_PULSE_LONG_ON]
  · intro s
    exact stateStores_effects stm32f4 (atPhase g s n)
  all_goals
    cases hv : tvIsVideo n <;> cases h1 : tvIsSync1Long n <;> cases h2 : tvIsSync2Long n <;>
    simp [effects, TVTIMER_IRQHandler, handlerSwitch, atPhase, setTimer,
      sync_start, sync_end, pinStateWrites, hv, h1, h2]

/-! ## Runs of several handler calls -/

theorem run_add (stm32f4 : Bool) (a b : Nat) (g : Globals) :
    run stm32f4 (a + b) g = run stm32f4 b (run stm32f4 a g) := by
  induction a generalizing g with
  | zero => simp [run]
  | succ a ih =>
    have h : a + 1 + b = (a + b) + 1 := by omega
    rw [h]
    simp [run, ih]

/-- A handler run on a visible line in SYNC1_START, SYNC1_END, VID_START,
VID_BACKPORCH order, and on any other line in SYNC1_START, SYNC1_END,
SYNC2_START, SYNC2_END order: the phases of the first three runs. -/
theorem run_three_phases (stm32f4 : Bool) (g : Globals) (n : Int) :
    (run stm32f4 1 (atPhase g TvState.TVS_SYNC1_START n)) =
        atPhase g TvState.TVS_SYNC1_END n ∧
      (run stm32f4 2 (atPhase g TvState.TVS_SYNC1_START n)) =
        atPhase g (if tvIsVideo n then TvState.TVS_VID_START else TvState.TVS_SYNC2_START) n ∧
      (run stm32f4 3 (atPhase g TvState.TVS_SYNC1_START n)) =
        atPhase g (if tvIsVideo n then TvState.TVS_VID_BACKPORCH else TvState.TVS_SYNC2_END) n := by
  cases hv : tvIsVideo n <;>
    simp [run, step, TVTIMER_IRQHandler, handlerSwitch, atPhase, hv]

/-- Four handler runs from SYNC1_START complete the line: the phase is
SYNC1_START again and the line counter went through `countLine` once. -/
theorem run_four (stm32f4 : Bool) (g : Globals) (n : Int) :
    run stm32f4 4 (atPhase g TvState.TVS_SYNC1_START n) =
      atPhase g TvState.TVS_SYNC1_START (countLine n) := by
  cases hv : tvIsVideo n <;>
    simp [run, step, TVTIMER_IRQHandler, handlerSwitch, atPhase, hv]

/-- From power-on, `4 * k` handler runs reach the start of line `k`, for every
`k` up to 625. -/
theorem run_lines (stm32f4 : Bool) (g : Globals) (k : Nat) (hk : k ≤ 625) :
    run stm32f4 (4 * k) (initial g) = atPhase g TvState.TVS_SYNC1_START (k : Int) := by
  induction k with
  | zero => rfl
  | succ k ih =>
    have h : 4 * (k + 1) = 4 * k + 4 := by omega
    rw [h, run_add, ih (by omega), run_four]
    have hc : countLine (k : Int) = ((k + 1 : Nat) : Int) := by
      unfold countLine
      rw [if_neg (by omega)]
      push_cast
      rfl
    rw [hc]

/-! ## The line cycle and the line counter -/

/-- C3: the code leaves the range [0, 624]. The cycle of line 624, started in
SYNC1_START, ends in SYNC1_START with `tvCurrentLine = 625`, not 0; that
configuration is reached from power-on by 2500 handler runs, and only the cycle
after it, four runs later, resets the counter to 0. -/
theorem C3_line_624_cycle_leaves_counter_at_625 (stm32f4 : Bool) (g : Globals) :
    run stm32f4 4 (atPhase g TvState.TVS_SYNC1_START 624) =
        atPhase g TvState.TVS_SYNC1_START 625 ∧
      run stm32f4 2500 (initial g) = atPhase g TvState.TVS_SYNC1_START 625 ∧
      run stm32f4 2504 (initial g) = atPhase g TvState.TVS_SYNC1_START 0 := by
  have h625 : run stm32f4 2500 (initial g) = atPhase g TvState.TVS_SYNC1_START 625 :=
    run_lines stm32f4 g 625 (by omega)
  refine ⟨?_, h625, ?_⟩
  · rw [run_four]
    rfl
  · have h := run_add stm32f4 2500 4 (initial g)
    simp only [Nat.reduceAdd] at h
    rw [h, h625, run_four]
    rfl

/-- C7: the line counter changes only on entering SYNC1_START. For every phase
and line index a handler run either ends in a phase other than SYNC1_START and
leaves `tvCurrentLine` as it was, or ends in SYNC1_START and changes
`tvCurrentLine`, to the old value plus one or to 0. So over the four runs of
the cycle of a line `n` the counter is still `n` after the first three and is
changed by the fourth alone. -/
theorem C7_counter_changes_only_on_entering_sync1_start (stm32f4 : Bool) (g : Globals)
    (n : Int) :
    (((step stm32f4 g).tvState ≠ TvState.TVS_SYNC1_START ∧
          (step stm32f4 g).tvCurrentLine = g.tvCurrentLine) ∨
        ((step stm32f4 g).tvState = TvState.TVS_SYNC1_START ∧
          (step stm32f4 g).tvCurrentLine ≠ g.tvCurrentLine ∧
          ((step stm32f4 g).tvCurrentLine = g.tvCurrentLine + 1 ∨
            (step stm32f4 g).tvCurrentLine = 0))) ∧
      (run stm32f4 1 (atPhase g TvState.TVS_SYNC1_START n)).tvCurrentLine = n ∧
      (run stm32f4 2 (atPhase g TvState.TVS_SYNC1_START n)).tvCurrentLine = n ∧
      (run stm32f4 3 (atPhase g TvState.TVS_SYNC1_START n)).tvCurrentLine = n ∧
      (run stm32f4 4 (atPhase g TvState.TVS_SYNC1_START n)).tvCurrentLine ≠ n ∧
      ((run stm32f4 4 (atPhase g TvState.TVS_SYNC1_START n)).tvCurrentLine = n + 1 ∨
        (run stm32f4 4 (atPhase g TvState.TVS_SYNC1_START n)).tvCurrentLine = 0) := by
  have h3 := run_three_phases stm32f4 g n
  have h4 := run_four stm32f4 g n
  have hc : countLine n ≠ n ∧ (countLine n = n + 1 ∨ countLine n = 0) := by
    unfold countLine
    split_ifs <;> omega
  refine ⟨?_, ?_, ?_, ?_, ?_, ?_⟩
  · obtain ⟨w, h, pv, ps, pp, m, t, s⟩ := g
    cases s <;> cases hv : tvIsVideo m <;>
      simp [step, TVTIMER_IRQHandler, handlerSwitch, hv, countLine] <;>
      (by_cases hn : 624 < m <;> simp [hn]; omega)
  · rw [h3.1]
    rfl
  · rw [h3.2.1]
    rfl
  · rw [h3.2.2]
    rfl
  · rw [h4]
    exact hc.1
  · rw [h4]
    exact hc.2

/-! ## The line predicates, line by line -/

set_option maxRecDepth 100000 in
theorem visibleLineCount_eq : visibleLineCount = 611 := by
  decide

/-- C8: `tvIsVideo` holds exactly on lines 5..309 and 317..622; within 0..624
the lines it rejects are exactly 0..4, 310..316 and 623..624; 305 + 306 = 611
lines of 0..624 are visible. -/
theorem C8_visible_lines_are_the_two_fields (n : Int) :
    (tvIsVideo n = true ↔ (5 ≤ n ∧ n ≤ 309) ∨ (317 ≤ n ∧ n ≤ 622)) ∧
      ((0 ≤ n ∧ n ≤ 624 ∧ tvIsVideo n = false) ↔
        (0 ≤ n ∧ n ≤ 4) ∨ (310 ≤ n ∧ n ≤ 316) ∨ (623 ≤ n ∧ n ≤ 624)) ∧
      visibleLineCount = 305 + 306 ∧ visibleLineCount = 611 := by
  refine ⟨tvIsVideo_iff n, ?_, ?_, ?_⟩
  · have h := tvIsVideo_iff n
    cases hv : tvIsVideo n
    · rw [hv] at h
      simp at h
      constructor
      · intro _
        omega
      · intro _
        refine ⟨?_, ?_, rfl⟩ <;> omega
    · rw [hv] at h
      have h2 := h.mp rfl
      simp
      omega
  · exact visibleLineCount_eq
  · exact visibleLineCount_eq

/-- C9: on the line indices 0..624 `tvIsSync1Long` holds exactly on lines 0, 1,
2, 313, 314 and `tvIsSync2Long` exactly on lines 0, 1, 312, 313, 314; both hold
on line 0. -/
theorem C9_long_sync_lines (n : Int) (h0 : 0 ≤ n) (h1 : n ≤ 624) :
    (tvIsSync1Long n = true ↔ n = 0 ∨ n = 1 ∨ n = 2 ∨ n = 313 ∨ n = 314) ∧
      (tvIsSync2Long n = true ↔ n = 0 ∨ n = 1 ∨ n = 312 ∨ n = 313 ∨ n = 314) ∧
      tvIsSync1Long 0 = true ∧ tvIsSync2Long 0 = true := by
  refine ⟨?_, ?_, by decide, by decide⟩
  · rw [tvIsSync1Long_iff]
    omega
  · rw [tvIsSync2Long_iff]
    omega

/-- C9 on line 313. -/
theorem C9_long_sync_lines_witness :
    (tvIsSync1Long 313 = true ↔
        (313 : Int) = 0 ∨ (313 : Int) = 1 ∨ (313 : Int) = 2 ∨ (313 : Int) = 313 ∨
          (313 : Int) = 314) ∧
      (tvIsSync2Long 313 = true ↔
        (313 : Int) = 0 ∨ (313 : Int) = 1 ∨ (313 : Int) = 312 ∨ (313 : Int) = 313 ∨
          (313 : Int) = 314) ∧
      tvIsSync1Long 0 = true ∧ tvIsSync2Long 0 = true :=
  C9_long_sync_lines 313 (by decide) (by decide)

/-! ## Totality of the handler -/

/-- C10: the handler is a total function of the phase and the line index. For
each of the seven values of `TvState` and every integer line index, one run
assigns `tvState` exactly once, stores to the timer reload register exactly
once, the stored value being `setTimer` of a duration among 5, 7, 8, 27, 44,
and ends in one of the six tabulated phases; `TVS_VID_VIDEO` is handled by the
`default:` label exactly as `TVS_SYNC2_END`. -/
theorem C10_handler_total_one_store_one_reload (stm32f4 : Bool) (g : Globals) (n : Int) :
    (stateStores (effects stm32f4 g)).length = 1 ∧
      stateStores (effects stm32f4 g) = [(step stm32f4 g).tvState] ∧
      (arrWrites (effects stm32f4 g)).length = 1 ∧
      (∃ d, d ∈ [5, 7, 8, 27, 44] ∧
        arrWrites (effects stm32f4 g) = [timerReload g.ticksPerLine d]) ∧
      (step stm32f4 g).tvState ∈
        [TvState.TVS_SYNC1_START, TvState.TVS_SYNC1_END, TvState.TVS_VID_START,
          TvState.TVS_VID_BACKPORCH, TvState.TVS_SYNC2_START, TvState.TVS_SYNC2_END] ∧
      TVTIMER_IRQHandler stm32f4 (atPhase g TvState.TVS_VID_VIDEO n) =
        ((atPhase g TvState.TVS_SYNC1_START (countLine n)),
          (TVTIMER_IRQHandler stm32f4 (atPhase g TvState.TVS_SYNC2_END n)).2) := by
  have hst := stateStores_effects stm32f4 g
  have harr : ∃ d, d ∈ [5, 7, 8, 27, 44] ∧
      arrWrites (effects stm32f4 g) = [timerReload g.ticksPerLine d] := by
    obtain ⟨w, h, pv, ps, pp, m, t, s⟩ := g
    cases s <;> cases hv : tvIsVideo m <;> cases h1 : tvIsSync1Long m <;>
      cases h2 : tvIsSync2Long m <;>
      simp [effects, TVTIMER_IRQHandler, handlerSwitch, setTimer, sync_start, sync_end,
        arrWrites, arrWrites_append, arrWrites_vblank_guard, hv, h1, h2,
        PAL_PULSE_SHORT_OFF, PAL_PULSE_LONG_OFF, PAL_HALF_LINE, PAL_LINE, PAL_PULSE_SHORT_ON,
        PAL_PULSE_LONG_ON, PAL_FRONTPORCH, PAL_BACKPORCH]
  refine ⟨?_, hst, ?_, harr, ?_, ?_⟩
  · rw [hst]
    rfl
  · obtain ⟨d, _, hd⟩ := harr
    rw [hd]
    rfl
  · obtain ⟨w, h, pv, ps, pp, m, t, s⟩ := g
    cases s <;> cases hv : tvIsVideo m <;>
      simp [step, TVTIMER_IRQHandler, handlerSwitch, hv]
  · simp [TVTIMER_IRQHandler, handlerSwitch, atPhase, setTimer, sync_end]

/-! ## The scanline transfer -/

theorem rowIndex_eq_ediv (a : Int) (H : Nat) (ha : 0 ≤ a) :
    rowIndex a H = a * (H : Int) / 270 := by
  unfold rowIndex
  exact Int.tdiv_eq_ediv (Int.mul_nonneg ha (Int.ofNat_nonneg H)) (by decide)

theorem rowIndex_nonneg (a : Int) (H : Nat) (ha : 0 ≤ a) : 0 ≤ rowIndex a H := by
  rw [rowIndex_eq_ediv a H ha]
  exact Int.ediv_nonneg (Int.mul_nonneg ha (Int.ofNat_nonneg H)) (by decide)

theorem rowIndex_mono (a b : Int) (H : Nat) (ha : 0 ≤ a) (hab : a ≤ b) :
    rowIndex a H ≤ rowIndex b H := by
  rw [rowIndex_eq_ediv a H ha, rowIndex_eq_ediv b H (le_trans ha hab)]
  exact Int.ediv_le_ediv (by decide) (Int.mul_le_mul_of_nonneg_right hab (Int.ofNat_nonneg H))

theorem rowIndex_lt_height (a : Int) (H : Nat) (ha : 0 ≤ a) (ha2 : a < 270) (hH : 1 ≤ H) :
    rowIndex a H < (H : Int) := by
  rw [rowIndex_eq_ediv a H ha]
  apply Int.ediv_lt_of_lt_mul (by decide)
  have hH2 : (1 : Int) ≤ (H : Int) := by exact_mod_cast hH
  nlinarith

theorem rowBytes_eq (w : Nat) : rowBytes w = w / 8 := by
  unfold rowBytes
  rw [Nat.shiftRight_eq_div_pow]

theorem rowOffset_eq (row : Int) (w : Nat) (h0 : 0 ≤ row) (h1 : row < 65536)
    (hw : w < 65536) : rowOffset row w = row.toNat * (w / 8) := by
  unfold rowOffset
  rw [rowBytes_eq]
  have hm : row % 2 ^ 32 = row := Int.emod_eq_of_lt h0 (by omega)
  rw [hm]
  apply Nat.mod_eq_of_lt
  have hr : row.toNat < 65536 := by omega
  have hb : w / 8 < 8192 := by omega
  calc row.toNat * (w / 8) < 65536 * 8192 := Nat.mul_lt_mul'' hr hb
    _ < 2 ^ 32 := by decide

/-- On a line of the mapped range the guarded call in VID_START switches the
video pin to serial output and arms the transfer of the row the line maps to. -/
theorem guarded_start_line_video_armed (stm32f4 : Bool) (g : Globals)
    (h : (30 ≤ g.tvCurrentLine ∧ g.tvCurrentLine ≤ 299) ∨
      (342 ≤ g.tvCurrentLine ∧ g.tvCurrentLine ≤ 611)) :
    (if g.tvCurrentLine > PAL_VBLANK then tv_start_line_video stm32f4 g else []) =
      Effect.pinSetState g.tvPinVideo JshPinState.JSHPINSTATE_AF_OUT ::
        armTransfer stm32f4 (rowBytes g.tvWidth)
          ((g.tvPixelPtr +
            rowOffset
              (rowIndex (if g.tvCurrentLine ≤ 299 then g.tvCurrentLine - 30
                else g.tvCurrentLine - 342) g.tvHeight)
              g.tvWidth) % 2 ^ 32) := by
  have hg : g.tvCurrentLine > PAL_VBLANK := by
    unfold PAL_VBLANK
    omega
  have hl : lineInField g.tvCurrentLine =
      (if g.tvCurrentLine ≤ 299 then g.tvCurrentLine - 30 else g.tvCurrentLine - 342) := by
    unfold lineInField PAL_VBLANK
    split_ifs <;> omega
  have hr : 0 ≤ lineInField g.tvCurrentLine ∧ lineInField g.tvCurrentLine < 270 := by
    rw [hl]
    split_ifs <;> omega
  rw [if_pos hg]
  unfold tv_start_line_video
  simp only []
  rw [if_pos hr, hl]
  cases stm32f4 <;> simp [armTransfer]

/-- On every other line the guarded call in VID_START does nothing. -/
theorem guarded_start_line_video_idle (stm32f4 : Bool) (g : Globals)
    (h : ¬ ((30 ≤ g.tvCurrentLine ∧ g.tvCurrentLine ≤ 299) ∨
      (342 ≤ g.tvCurrentLine ∧ g.tvCurrentLine ≤ 611))) :
    (if g.tvCurrentLine > PAL_VBLANK then tv_start_line_video stm32f4 g else []) = [] := by
  have hr : ¬ (0 ≤ lineInField g.tvCurrentLine ∧ lineInField g.tvCurrentLine < 270) := by
    unfold lineInField PAL_VBLANK
    split_ifs <;> omega
  unfold tv_start_line_video
  simp only []
  rw [if_neg hr]
  split <;> rfl

/-- The effects of a handler run in phase VID_START. -/
theorem effects_vid_start (stm32f4 : Bool) (g : Globals) (n : Int) :
    effects stm32f4 (atPhase g TvState.TVS_VID_START n) =
      [Effect.interruptOff, Effect.clearITPending, Effect.writeARR (timerReload g.ticksPerLine 44)]
        ++ (if (atPhase g TvState.TVS_VID_START n).tvCurrentLine > PAL_VBLANK then
              tv_start_line_video stm32f4 (atPhase g TvState.TVS_VID_START n) else [])
        ++ [Effect.storeState TvState.TVS_VID_BACKPORCH, Effect.interruptOn] := by
  simp [effects, TVTIMER_IRQHandler, handlerSwitch, atPhase, setTimer, PAL_LINE,
    PAL_PULSE_SHORT_ON, PAL_FRONTPORCH, PAL_BACKPORCH]

/-- C6: the row mapping `rowIndex x H = x*H/270` of `tv_start_line_video` is
monotonic and bounded. For every height `H` in 1..65535 and all line-in-field
values `a ≤ b` in 0..269, `rowIndex a H ≤ rowIndex b H` and
`0 ≤ rowIndex a H ≤ H - 1`; with `H = 96`, line-in-field 135 maps to row 48. -/
theorem C6_row_mapping_monotonic_and_bounded (H : Nat) (a b : Int)
    (hH1 : 1 ≤ H) (hH2 : H ≤ 65535) (ha : 0 ≤ a) (hab : a ≤ b) (hb : b ≤ 269) :
    rowIndex a H ≤ rowIndex b H ∧ 0 ≤ rowIndex a H ∧ rowIndex a H ≤ (H : Int) - 1 ∧
      rowIndex a H = a * (H : Int) / 270 ∧ a * (H : Int) < 2 ^ 31 ∧ rowIndex 135 96 = 48 := by
  have hlt := rowIndex_lt_height a H ha (by omega) hH1
  have hH3 : (H : Int) ≤ 65535 := by exact_mod_cast hH2
  have hprod : a * (H : Int) < 2 ^ 31 := by nlinarith
  refine ⟨rowIndex_mono a b H ha hab, rowIndex_nonneg a H ha, by omega,
    rowIndex_eq_ediv a H ha, hprod, by decide⟩

/-- C6 at height 96, between line-in-field 135 and 269. -/
theorem C6_row_mapping_monotonic_and_bounded_witness :
    rowIndex 135 96 ≤ rowIndex 269 96 ∧ 0 ≤ rowIndex 135 96 ∧
      rowIndex 135 96 ≤ ((96 : Nat) : Int) - 1 ∧
      rowIndex 135 96 = 135 * ((96 : Nat) : Int) / 270 ∧
      135 * ((96 : Nat) : Int) < 2 ^ 31 ∧ rowIndex 135 96 = 48 :=
  C6_row_mapping_monotonic_and_bounded 96 135 269 (by decide) (by decide) (by decide)
    (by decide) (by decide)

/-- C4: a handler run in phase VID_START on line `n` arms a pixel transfer if
and only if `30 ≤ n ≤ 299` or `342 ≤ n ≤ 611`. When it does, after the reload
store of 44 it switches the video pin to serial-output mode and arms a transfer
of `tvWidth/8` bytes from offset `row * (tvWidth/8)` of the framebuffer, where
`row = lineInField * tvHeight / 270` and `lineInField` is `n - 30` resp.
`n - 342`; the address stored is `tvPixelPtr` plus that offset, reduced to 32
bits as the `(uint32_t)` cast does; on every other line it touches neither the DMA engine nor the video
pin mode. The transfer is armed on line 160. -/
theorem C4_transfer_armed_exactly_on_mapped_lines (stm32f4 : Bool) (g : Globals) (n : Int)
    (hw : g.tvWidth < 65536) (hh : g.tvHeight < 65536) :
    (Effect.dmaEnable ∈ effects stm32f4 (atPhase g TvState.TVS_VID_START n) ↔
        (30 ≤ n ∧ n ≤ 299) ∨ (342 ≤ n ∧ n ≤ 611)) ∧
      effects stm32f4 (atPhase g TvState.TVS_VID_START n) =
        [Effect.interruptOff, Effect.clearITPending,
            Effect.writeARR (timerReload g.ticksPerLine 44)] ++
          (if (30 ≤ n ∧ n ≤ 299) ∨ (342 ≤ n ∧ n ≤ 611) then
            Effect.pinSetState g.tvPinVideo JshPinState.JSHPINSTATE_AF_OUT ::
              armTransfer stm32f4 (g.tvWidth / 8)
                ((g.tvPixelPtr +
                  ((if n ≤ 299 then n - 30 else n - 342) * (g.tvHeight : Int) / 270).toNat *
                    (g.tvWidth / 8)) % 2 ^ 32)
          else []) ++
          [Effect.storeState TvState.TVS_VID_BACKPORCH, Effect.interruptOn] ∧
      Effect.dmaEnable ∈ effects stm32f4 (atPhase g TvState.TVS_VID_START 160) := by
  have key : ∀ m : Int, effects stm32f4 (atPhase g TvState.TVS_VID_START m) =
      [Effect.interruptOff, Effect.clearITPending,
          Effect.writeARR (timerReload g.ticksPerLine 44)] ++
        (if (30 ≤ m ∧ m ≤ 299) ∨ (342 ≤ m ∧ m ≤ 611) then
          Effect.pinSetState g.tvPinVideo JshPinState.JSHPINSTATE_AF_OUT ::
            armTransfer stm32f4 (g.tvWidth / 8)
              ((g.tvPixelPtr +
                ((if m ≤ 299 then m - 30 else m - 342) * (g.tvHeight : Int) / 270).toNat *
                  (g.tvWidth / 8)) % 2 ^ 32)
        else []) ++
        [Effect.storeState TvState.TVS_VID_BACKPORCH, Effect.interruptOn] := by
    intro m
    rw [effects_vid_start]
    by_cases hm : (30 ≤ m ∧ m ≤ 299) ∨ (342 ≤ m ∧ m ≤ 611)
    · rw [guarded_start_line_video_armed stm32f4 (atPhase g TvState.TVS_VID_START m) hm,
        if_pos hm]
      have hl0 : 0 ≤ (if m ≤ 299 then m - 30 else m - 342) := by split_ifs <;> omega
      have hl1 : (if m ≤ 299 then m - 30 else m - 342) < 270 := by split_ifs <;> omega
      have hrow0 := rowIndex_nonneg _ g.tvHeight hl0
      have hrow1 : rowIndex (if m ≤ 299 then m - 30 else m - 342) g.tvHeight < 65536 := by
        by_cases hz : g.tvHeight = 0
        · rw [rowIndex_eq_ediv _ _ hl0, hz]
          simp
        · have := rowIndex_lt_height _ g.tvHeight hl0 hl1 (by omega)
          omega
      have hoff := rowOffset_eq _ g.tvWidth hrow0 hrow1 hw
      simp only [atPhase] at hoff ⊢
      rw [hoff, rowBytes_eq, rowIndex_eq_ediv _ _ hl0]
    · rw [guarded_start_line_video_idle stm32f4 (atPhase g TvState.TVS_VID_START m) hm,
        if_neg hm]
  refine ⟨?_, key n, ?_⟩
  · rw [key n]
    by_cases hn : (30 ≤ n ∧ n ≤ 299) ∨ (342 ≤ n ∧ n ≤ 611)
    · rw [if_pos hn]
      cases stm32f4 <;> simp [armTransfer, hn]
    · rw [if_neg hn]
      simp [hn]
  · rw [key 160]
    cases stm32f4 <;> simp [armTransfer]

/-- C4 on line 160 of the sample configuration. -/
theorem C4_transfer_armed_exactly_on_mapped_lines_witness :
    (Effect.dmaEnable ∈ effects true (atPhase sample TvState.TVS_VID_START 160) ↔
        (30 ≤ (160 : Int) ∧ (160 : Int) ≤ 299) ∨ (342 ≤ (160 : Int) ∧ (160 : Int) ≤ 611)) ∧
      effects true (atPhase sample TvState.TVS_VID_START 160) =
        [Effect.interruptOff, Effect.clearITPending,
            Effect.writeARR (timerReload sample.ticksPerLine 44)] ++
          (if (30 ≤ (160 : Int) ∧ (160 : Int) ≤ 299) ∨
              (342 ≤ (160 : Int) ∧ (160 : Int) ≤ 611) then
            Effect.pinSetState sample.tvPinVideo JshPinState.JSHPINSTATE_AF_OUT ::
              armTransfer true (sample.tvWidth / 8)
                ((sample.tvPixelPtr +
                  ((if (160 : Int) ≤ 299 then (160 : Int) - 30 else (160 : Int) - 342) *
                    (sample.tvHeight : Int) / 270).toNat * (sample.tvWidth / 8)) % 2 ^ 32)
          else []) ++
          [Effect.storeState TvState.TVS_VID_BACKPORCH, Effect.interruptOn] ∧
      Effect.dmaEnable ∈ effects true (atPhase sample TvState.TVS_VID_START 160) :=
  C4_transfer_armed_exactly_on_mapped_lines true sample 160 (by decide) (by decide)

/-- C5: every transfer `tv_start_line_video` arms reads inside the framebuffer.
For `tvWidth` a multiple of 8 (an `unsigned short`), `tvHeight` in 1..65535 and
every line index at which the function arms a transfer, the function stores
the length `tvWidth/8` and the address `(uint32_t)(tvPixelPtr + off)` with
`off = row * (tvWidth/8)`, and `off + tvWidth/8` is at most
`(tvWidth/8) * tvHeight`, the size of the buffer, which holds exactly
`tvWidth * tvHeight` bits; the product `lineIdx * tvHeight` stays within the
range of a 32-bit signed `int`. When `tvPixelPtr` is a 32-bit address and the
buffer ends inside the address space, the reduction to 32 bits changes nothing:
the address stored is `tvPixelPtr + off`, and the bytes read lie between
`tvPixelPtr` and the end of the buffer. -/
theorem C5_armed_transfer_stays_inside_framebuffer (stm32f4 : Bool) (g : Globals)
    (hw8 : 8 ∣ g.tvWidth) (hw : g.tvWidth < 65536)
    (hh1 : 1 ≤ g.tvHeight) (hh2 : g.tvHeight ≤ 65535)
    (harm : Effect.dmaEnable ∈ tv_start_line_video stm32f4 g) :
    tv_start_line_video stm32f4 g =
        Effect.pinSetState g.tvPinVideo JshPinState.JSHPINSTATE_AF_OUT ::
          armTransfer stm32f4 (g.tvWidth / 8)
            ((g.tvPixelPtr +
              rowOffset (rowIndex (lineInField g.tvCurrentLine) g.tvHeight) g.tvWidth) %
                2 ^ 32) ∧
      rowOffset (rowIndex (lineInField g.tvCurrentLine) g.tvHeight) g.tvWidth =
        (rowIndex (lineInField g.tvCurrentLine) g.tvHeight).toNat * (g.tvWidth / 8) ∧
      rowOffset (rowIndex (lineInField g.tvCurrentLine) g.tvHeight) g.tvWidth + g.tvWidth / 8 ≤
        framebufferBytes g.tvWidth g.tvHeight ∧
      framebufferBytes g.tvWidth g.tvHeight * 8 = g.tvWidth * g.tvHeight ∧
      -(2 ^ 31) ≤ lineInField g.tvCurrentLine * (g.tvHeight : Int) ∧
      lineInField g.tvCurrentLine * (g.tvHeight : Int) < 2 ^ 31 ∧
      (g.tvPixelPtr < 2 ^ 32 →
        g.tvPixelPtr + framebufferBytes g.tvWidth g.tvHeight ≤ 2 ^ 32 →
        (g.tvPixelPtr +
            rowOffset (rowIndex (lineInField g.tvCurrentLine) g.tvHeight) g.tvWidth) % 2 ^ 32 =
          g.tvPixelPtr +
            rowOffset (rowIndex (lineInField g.tvCurrentLine) g.tvHeight) g.tvWidth ∧
        g.tvPixelPtr +
            rowOffset (rowIndex (lineInField g.tvCurrentLine) g.tvHeight) g.tvWidth +
            g.tvWidth / 8 ≤
          g.tvPixelPtr + framebufferBytes g.tvWidth g.tvHeight) := by
  have hr : 0 ≤ lineInField g.tvCurrentLine ∧ lineInField g.tvCurrentLine < 270 := by
    by_contra hc
    unfold tv_start_line_video at harm
    simp only [] at harm
    rw [if_neg hc] at harm
    simp at harm
  have hrow0 := rowIndex_nonneg _ g.tvHeight hr.1
  have hrow1 := rowIndex_lt_height _ g.tvHeight hr.1 hr.2 hh1
  have hoff := rowOffset_eq _ g.tvWidth hrow0 (by omega) hw
  have hH : (g.tvHeight : Int) ≤ 65535 := by exact_mod_cast hh2
  have hH0 : (0 : Int) ≤ (g.tvHeight : Int) := Int.ofNat_nonneg _
  have hfit : rowOffset (rowIndex (lineInField g.tvCurrentLine) g.tvHeight) g.tvWidth +
      g.tvWidth / 8 ≤ framebufferBytes g.tvWidth g.tvHeight := by
    rw [hoff]
    unfold framebufferBytes
    have hle : (rowIndex (lineInField g.tvCurrentLine) g.tvHeight).toNat + 1 ≤ g.tvHeight := by
      omega
    calc (rowIndex (lineInField g.tvCurrentLine) g.tvHeight).toNat * (g.tvWidth / 8)
          + g.tvWidth / 8
        = ((rowIndex (lineInField g.tvCurrentLine) g.tvHeight).toNat + 1) * (g.tvWidth / 8) := by
          ring
      _ ≤ g.tvHeight * (g.tvWidth / 8) := Nat.mul_le_mul_right _ hle
      _ = g.tvWidth / 8 * g.tvHeight := Nat.mul_comm _ _
  refine ⟨?_, hoff, hfit, ?_, ?_, ?_, ?_⟩
  · unfold tv_start_line_video
    simp only []
    rw [if_pos hr, rowBytes_eq]
    cases stm32f4 <;> simp [armTransfer]
  · unfold framebufferBytes
    obtain ⟨k, hk⟩ := hw8
    rw [hk, Nat.mul_div_cancel_left k (by decide)]
    ring
  · have := Int.mul_nonneg hr.1 hH0
    omega
  · nlinarith [hr.1, hr.2]
  · intro hp hend
    refine ⟨Nat.mod_eq_of_lt ?_, by omega⟩
    by_cases hz : g.tvWidth / 8 = 0
    · rw [hoff, hz]
      simpa using hp
    · omega

/-- C5 on line 160 of the sample configuration, 128 x 96 pixels. -/
theorem C5_armed_transfer_stays_inside_framebuffer_witness :
    tv_start_line_video true sampleLine160 =
        Effect.pinSetState sampleLine160.tvPinVideo JshPinState.JSHPINSTATE_AF_OUT ::
          armTransfer true (sampleLine160.tvWidth / 8)
            ((sampleLine160.tvPixelPtr +
              rowOffset (rowIndex (lineInField sampleLine160.tvCurrentLine)
                sampleLine160.tvHeight) sampleLine160.tvWidth) % 2 ^ 32) ∧
      rowOffset (rowIndex (lineInField sampleLine160.tvCurrentLine) sampleLine160.tvHeight)
          sampleLine160.tvWidth =
        (rowIndex (lineInField sampleLine160.tvCurrentLine) sampleLine160.tvHeight).toNat *
          (sampleLine160.tvWidth / 8) ∧
      rowOffset (rowIndex (lineInField sampleLine160.tvCurrentLine) sampleLine160.tvHeight)
          sampleLine160.tvWidth + sampleLine160.tvWidth / 8 ≤
        framebufferBytes sampleLine160.tvWidth sampleLine160.tvHeight ∧
      framebufferBytes sampleLine160.tvWidth sampleLine160.tvHeight * 8 =
        sampleLine160.tvWidth * sampleLine160.tvHeight ∧
      -(2 ^ 31) ≤ lineInField sampleLine160.tvCurrentLine * (sampleLine160.tvHeight : Int) ∧
      lineInField sampleLine160.tvCurrentLine * (sampleLine160.tvHeight : Int) < 2 ^ 31 ∧
      (sampleLine160.tvPixelPtr < 2 ^ 32 →
        sampleLine160.tvPixelPtr +
            framebufferBytes sampleLine160.tvWidth sampleLine160.tvHeight ≤ 2 ^ 32 →
        (sampleLine160.tvPixelPtr +
            rowOffset (rowIndex (lineInField sampleLine160.tvCurrentLine)
              sampleLine160.tvHeight) sampleLine160.tvWidth) % 2 ^ 32 =
          sampleLine160.tvPixelPtr +
            rowOffset (rowIndex (lineInField sampleLine160.tvCurrentLine)
              sampleLine160.tvHeight) sampleLine160.tvWidth ∧
        sampleLine160.tvPixelPtr +
            rowOffset (rowIndex (lineInField sampleLine160.tvCurrentLine)
              sampleLine160.tvHeight) sampleLine160.tvWidth +
            sampleLine160.tvWidth / 8 ≤
          sampleLine160.tvPixelPtr +
            framebufferBytes sampleLine160.tvWidth sampleLine160.tvHeight) :=
  C5_armed_transfer_stays_inside_framebuffer true sampleLine160
    (by decide) (by decide) (by decide) (by decide) (by decide)

/-- A buffer placed at the top of the address space: at `tvPixelPtr =
0xFFFFFF00`, 128 x 96 pixels, line 160 maps to row 46, offset 736, and the
address stored is the sum reduced to 32 bits, 480. -/
theorem tv_start_line_video_address_wraps :
    tv_start_line_video true
        { sampleLine160 with tvPixelPtr := 4294967040 } =
      [Effect.pinSetState 7 JshPinState.JSHPINSTATE_AF_OUT, Effect.dmaWriteCount 16,
        Effect.dmaWriteAddr 480, Effect.dmaClearFlag, Effect.dmaEnable] := by
  decide

/-! ## Configuration -/

/-- The mask `~7` clears the low three bits of a 32-bit value. -/
theorem land_not_seven (x : Nat) (hx : x < 2 ^ 32) : x &&& 4294967288 = x / 8 * 8 := by
  have hm : (4294967288 : Nat) = (2 ^ 29 - 1) <<< 3 := by decide
  have hr : x / 8 * 8 = (x >>> 3) <<< 3 := by
    rw [Nat.shiftLeft_eq, Nat.shiftRight_eq_div_pow]
  rw [hm, hr]
  apply Nat.eq_of_testBit_eq
  intro i
  simp only [Nat.testBit_and, Nat.testBit_shiftLeft, Nat.testBit_two_pow_sub_one,
    Nat.testBit_shiftRight]
  by_cases h3 : 3 ≤ i
  · have e : 3 + (i - 3) = i := by omega
    by_cases h32 : i - 3 < 29
    · simp [h3, h32, e]
    · have hi : 32 ≤ i := by omega
      have hf : x.testBit i = false :=
        Nat.testBit_lt_two_pow (lt_of_lt_of_le hx (Nat.pow_le_pow_right (by decide) hi))
      simp [h3, h32, e, hf]
  · simp [h3]

theorem roundWidth_eq (width : Int) :
    roundWidth width = ((width % 2 ^ 32).toNat + 7) % 2 ^ 32 / 8 * 8 % 2 ^ 16 := by
  unfold roundWidth
  rw [land_not_seven _ (Nat.mod_lt _ (by decide))]

theorem roundWidth_dvd (width : Int) : 8 ∣ roundWidth width := by
  rw [roundWidth_eq]
  omega

theorem roundWidth_of_small (width : Int) (h0 : 0 ≤ width) (h1 : width ≤ 65528) :
    roundWidth width = (width.toNat + 7) / 8 * 8 := by
  rw [roundWidth_eq]
  have hm : width % 2 ^ 32 = width := Int.emod_eq_of_lt h0 (by omega)
  rw [hm]
  omega

theorem tv_setup_pal_tvWidth (g : Globals) (pinVideo pinSync : Nat) (width height : Int)
    (timer : Nat) (gfx : Option (Nat × Nat)) (timerFreq : Nat) :
    (tv_setup_pal g pinVideo pinSync width height timer gfx timerFreq).globals.tvWidth =
      roundWidth width := by
  unfold tv_setup_pal
  by_cases ht : timer = 0
  · simp [ht]
  · cases gfx with
    | none => simp [ht]
    | some p => simp [ht]

/-- C11: `tv_setup_pal` rounds the width up to a multiple of 8. For every
requested width `w` in 0..65528 the stored `tvWidth` is `(w+7) & ~7`, which is
a multiple of 8, at least `w`, and at most every multiple of 8 that is at least
`w`; the transfer length `tvWidth>>3` is `ceil(w/8) = (w+7)/8`. For every int
`v` the stored `tvWidth` is a multiple of 8. A width of 128 gives
`tvWidth = 128` and a transfer length of 16 bytes. -/
theorem C11_width_rounded_up_to_multiple_of_8 (g : Globals) (pinVideo pinSync : Nat)
    (height : Int) (timer : Nat) (gfx : Option (Nat × Nat)) (timerFreq : Nat)
    (w v : Int) (h0 : 0 ≤ w) (h1 : w ≤ 65528) :
    (tv_setup_pal g pinVideo pinSync w height timer gfx timerFreq).globals.tvWidth =
        roundWidth w ∧
      8 ∣ roundWidth w ∧ w ≤ (roundWidth w : Int) ∧
      (∀ m : Nat, 8 ∣ m → w ≤ (m : Int) → roundWidth w ≤ m) ∧
      rowBytes (roundWidth w) = (w.toNat + 7) / 8 ∧
      (tv_setup_pal g pinVideo pinSync v height timer gfx timerFreq).globals.tvWidth =
        roundWidth v ∧
      8 ∣ roundWidth v ∧
      roundWidth 128 = 128 ∧ rowBytes (roundWidth 128) = 16 := by
  have hr := roundWidth_of_small w h0 h1
  refine ⟨tv_setup_pal_tvWidth _ _ _ _ _ _ _ _, roundWidth_dvd w, ?_, ?_, ?_,
    tv_setup_pal_tvWidth _ _ _ _ _ _ _ _, roundWidth_dvd v, by decide, by decide⟩
  · rw [hr]
    omega
  · intro m hm hwm
    rw [hr]
    omega
  · rw [rowBytes_eq, hr]
    omega

/-- C11 for a requested width of 100 pixels. -/
theorem C11_width_rounded_up_to_multiple_of_8_witness :
    (tv_setup_pal sample 7 6 100 96 1 (some (1, 536870912)) 72000000).globals.tvWidth =
        roundWidth 100 ∧
      8 ∣ roundWidth 100 ∧ (100 : Int) ≤ (roundWidth 100 : Int) ∧
      (∀ m : Nat, 8 ∣ m → (100 : Int) ≤ (m : Int) → roundWidth 100 ≤ m) ∧
      rowBytes (roundWidth 100) = ((100 : Int).toNat + 7) / 8 ∧
      (tv_setup_pal sample 7 6 (-3) 96 1 (some (1, 536870912)) 72000000).globals.tvWidth =
        roundWidth (-3) ∧
      8 ∣ roundWidth (-3) ∧
      roundWidth 128 = 128 ∧ rowBytes (roundWidth 128) = 16 :=
  C11_width_rounded_up_to_multiple_of_8 sample 7 6 96 1 (some (1, 536870912)) 72000000
    100 (-3) (by decide) (by decide)

/-- C12: when the timer for the sync pin cannot be reserved
(`jshPinAnalogOutput` returns 0) `tv_setup_pal` returns the null handle and the
reservation attempt is the only call it has made: the framebuffer is not
requested, SPI and DMA are not configured, and the line timer and its interrupt
are not enabled. -/
theorem C12_timer_reservation_failure_returns_null (g : Globals) (pinVideo pinSync : Nat)
    (width height : Int) (gfx : Option (Nat × Nat)) (timerFreq : Nat) :
    (tv_setup_pal g pinVideo pinSync width height 0 gfx timerFreq).handle = none ∧
      (tv_setup_pal g pinVideo pinSync width height 0 gfx timerFreq).calls =
        [SetupCall.jshPinAnalogOutput pinSync 15625] ∧
      (∀ w h b, SetupCall.createArrayBuffer w h b ∉
        (tv_setup_pal g pinVideo pinSync width height 0 gfx timerFreq).calls) ∧
      (∀ baud mosi, SetupCall.jshSPISetup baud mosi ∉
        (tv_setup_pal g pinVideo pinSync width height 0 gfx timerFreq).calls) ∧
      (∀ a n, SetupCall.dmaInit a n ∉
        (tv_setup_pal g pinVideo pinSync width height 0 gfx timerFreq).calls) ∧
      SetupCall.dmaCmdEnable ∉
        (tv_setup_pal g pinVideo pinSync width height 0 gfx timerFreq).calls ∧
      SetupCall.nvicInit ∉
        (tv_setup_pal g pinVideo pinSync width height 0 gfx timerFreq).calls ∧
      SetupCall.timerInterruptEnable ∉
        (tv_setup_pal g pinVideo pinSync width height 0 gfx timerFreq).calls ∧
      SetupCall.timerEnable ∉
        (tv_setup_pal g pinVideo pinSync width height 0 gfx timerFreq).calls := by
  have hc : (tv_setup_pal g pinVideo pinSync width height 0 gfx timerFreq).calls =
      [SetupCall.jshPinAnalogOutput pinSync 15625] := by
    simp [tv_setup_pal]
  refine ⟨by simp [tv_setup_pal], hc, ?_, ?_, ?_, ?_, ?_, ?_, ?_⟩ <;> simp [hc]

/-- C13, as stated, fails: in the sample call where the buffer provider returns
null, `tv_setup_pal` returns null, but a pin and timer setup call has already
been made. -/
theorem C13_buffer_is_not_acquired_first :
    ¬ (sampleAllocationFailure.handle = none ∧
        sampleAllocationFailure.calls.filter isPeripheralSetup = []) := by
  decide

/-- C13, amended: when the timer was reserved and the graphics-buffer provider
returns null, `tv_setup_pal` returns null; the calls made up to that point are
the timer reservation `jshPinAnalogOutput(tvPinSync, 0.5, 15625)` followed by
the buffer request, so the reservation for the sync pin is the only peripheral
setup made and no SPI, DMA, line-timer or interrupt call has been made. -/
theorem C13_allocation_failure_after_timer_reservation (g : Globals)
    (pinVideo pinSync : Nat) (width height : Int) (timer timerFreq : Nat)
    (ht : timer ≠ 0) :
    (tv_setup_pal g pinVideo pinSync width height timer none timerFreq).handle = none ∧
      (tv_setup_pal g pinVideo pinSync width height timer none timerFreq).calls =
        [SetupCall.jshPinAnalogOutput pinSync 15625,
          SetupCall.createArrayBuffer (roundWidth width) (height % 2 ^ 16).toNat 1] ∧
      (tv_setup_pal g pinVideo pinSync width height timer none timerFreq).calls.filter
          isPeripheralSetup =
        [SetupCall.jshPinAnalogOutput pinSync 15625] := by
  have hc : (tv_setup_pal g pinVideo pinSync width height timer none timerFreq).calls =
      [SetupCall.jshPinAnalogOutput pinSync 15625,
        SetupCall.createArrayBuffer (roundWidth width) (height % 2 ^ 16).toNat 1] := by
    simp [tv_setup_pal, ht]
  refine ⟨by simp [tv_setup_pal, ht], hc, ?_⟩
  rw [hc]
  simp [List.filter, isPeripheralSetup]

/-- C13, amended, on the sample call. -/
theorem C13_allocation_failure_after_timer_reservation_witness :
    (tv_setup_pal sample 7 6 128 96 1 none 72000000).handle = none ∧
      (tv_setup_pal sample 7 6 128 96 1 none 72000000).calls =
        [SetupCall.jshPinAnalogOutput 6 15625,
          SetupCall.createArrayBuffer (roundWidth 128) ((96 : Int) % 2 ^ 16).toNat 1] ∧
      (tv_setup_pal sample 7 6 128 96 1 none 72000000).calls.filter isPeripheralSetup =
        [SetupCall.jshPinAnalogOutput 6 15625] :=
  C13_allocation_failure_after_timer_reservation sample 7 6 128 96 1 72000000 (by decide)

/-! ## Visible lines and the opening pulse -/

/-- C14: the visible ranges do not overlap the long-sync lines. On a visible
line `n` neither `tvIsSync1Long` nor `tvIsSync2Long` holds; hence on every line
`m` the SYNC1_START condition `tvIsVideo() || !tvIsSync1Long()` has the value
of `!tvIsSync1Long()`, and the SYNC1_START run of a visible line programs the
short pulse, 5. -/
theorem C14_visible_lines_have_short_sync (stm32f4 : Bool) (g : Globals) (n m : Int)
    (hv : tvIsVideo n = true) :
    tvIsSync1Long n = false ∧ tvIsSync2Long n = false ∧
      (tvIsVideo m || !tvIsSync1Long m) = !tvIsSync1Long m ∧
      observe stm32f4 (atPhase g TvState.TVS_SYNC1_START n) =
        (TvState.TVS_SYNC1_END, [timerReload g.ticksPerLine 5], [(g.tvPinSync, 0)]) := by
  have disjoint1 : ∀ k : Int, tvIsVideo k = true → tvIsSync1Long k = false := by
    intro k hk
    have h1 := (tvIsVideo_iff k).mp hk
    cases hs : tvIsSync1Long k
    · rfl
    · have h2 := (tvIsSync1Long_iff k).mp hs
      omega
  have hs1 := disjoint1 n hv
  refine ⟨hs1, ?_, ?_, ?_⟩
  · have h1 := (tvIsVideo_iff n).mp hv
    cases hs : tvIsSync2Long n
    · rfl
    · have h2 := (tvIsSync2Long_iff n).mp hs
      omega
  · cases hm : tvIsVideo m
    · simp
    · simp [disjoint1 m hm]
  · simp [observe, step, effects, TVTIMER_IRQHandler, handlerSwitch, atPhase, setTimer,
      sync_start, arrWrites, pinValueWrites, hv, PAL_PULSE_SHORT_ON]

/-- C14 on the visible line 160, with line 313 for the condition. -/
theorem C14_visible_lines_have_short_sync_witness :
    tvIsSync1Long 160 = false ∧ tvIsSync2Long 160 = false ∧
      (tvIsVideo 313 || !tvIsSync1Long 313) = !tvIsSync1Long 313 ∧
      observe true (atPhase sample TvState.TVS_SYNC1_START 160) =
        (TvState.TVS_SYNC1_END, [timerReload sample.ticksPerLine 5], [(sample.tvPinSync, 0)]) :=
  C14_visible_lines_have_short_sync true sample 160 313 (by decide)

/-! ## The transfer clock -/

theorem wrapInt32_of_range (x : Int) (h0 : -(2 ^ 31) ≤ x) (h1 : x < 2 ^ 31) :
    wrapInt32 x = x := by
  unfold wrapInt32
  rw [Int.emod_eq_of_lt (by omega) (by omega)]
  omega

theorem spiBaudRate_eq (w : Nat) (hw : (w : Int) * 1000000 < 2 ^ 31) :
    spiBaudRate w = (w : Int) * 1000000 / 52 := by
  unfold spiBaudRate
  have h0 : (0 : Int) ≤ (w : Int) * 1000000 :=
    Int.mul_nonneg (Int.ofNat_nonneg w) (by decide)
  rw [wrapInt32_of_range _ (by omega) hw]
  exact Int.tdiv_eq_ediv h0 (by decide)

/-- C15, as stated, fails for a width of 128 pixels: at the requested baud rate
128 bits take longer than 44 microseconds (`bits * 10^6 > 44 * baud`). -/
theorem C15_requested_rate_misses_44_microseconds :
    ¬ ((128 : Int) * 1000000 ≤ 44 * spiBaudRate 128) := by
  decide

/-- C15, amended: for every `tvWidth` that is a positive multiple of 8 with
`tvWidth * 1000000` inside the `int` range, the baud rate `tv_setup_pal`
requests in its `jshSPISetup` call is `tvWidth * 1000000 / 52`, and clocking out `tvWidth` bits at that
rate takes at least 52 and less than 53 microseconds. That is longer than the
44 microseconds programmed in VID_START and shorter than the 64 microsecond
line. -/
theorem C15_requested_rate_takes_52_microseconds (w : Nat) (hpos : 0 < w) (h8 : 8 ∣ w)
    (hw : (w : Int) * 1000000 < 2 ^ 31) :
    SetupCall.jshSPISetup (spiBaudRate w) 7 ∈
        (tv_setup_pal sample 7 6 (w : Int) 96 1 (some (1, 536870912)) 72000000).calls ∧
      spiBaudRate w = (w : Int) * 1000000 / 52 ∧
      52 * spiBaudRate w ≤ (w : Int) * 1000000 ∧
      (w : Int) * 1000000 < 53 * spiBaudRate w ∧
      (44 : Int) = ((PAL_LINE - (PAL_PULSE_SHORT_ON + PAL_FRONTPORCH + PAL_BACKPORCH) : Nat) : Int) ∧
      44 * spiBaudRate w < (w : Int) * 1000000 ∧
      (w : Int) * 1000000 ≤ 64 * spiBaudRate w := by
  have hb := spiBaudRate_eq w hw
  have hw8 : 8 ≤ w := Nat.le_of_dvd hpos h8
  have hw' : (8 : Int) ≤ (w : Int) := by exact_mod_cast hw8
  have hround : roundWidth (w : Int) = w := by
    rw [roundWidth_of_small (w : Int) (by omega) (by omega)]
    simp only [Int.toNat_ofNat]
    omega
  refine ⟨?_, hb, ?_, ?_, by decide, ?_, ?_⟩
  · simp [tv_setup_pal, hround]
  all_goals
    rw [hb]
    omega

/-- C15, amended, for a width of 128 pixels. -/
theorem C15_requested_rate_takes_52_microseconds_witness :
    SetupCall.jshSPISetup (spiBaudRate 128) 7 ∈
        (tv_setup_pal sample 7 6 ((128 : Nat) : Int) 96 1 (some (1, 536870912)) 72000000).calls ∧
      spiBaudRate 128 = ((128 : Nat) : Int) * 1000000 / 52 ∧
      52 * spiBaudRate 128 ≤ ((128 : Nat) : Int) * 1000000 ∧
      ((128 : Nat) : Int) * 1000000 < 53 * spiBaudRate 128 ∧
      (44 : Int) = ((PAL_LINE - (PAL_PULSE_SHORT_ON + PAL_FRONTPORCH + PAL_BACKPORCH) : Nat) : Int) ∧
      44 * spiBaudRate 128 < ((128 : Nat) : Int) * 1000000 ∧
      ((128 : Nat) : Int) * 1000000 ≤ 64 * spiBaudRate 128 :=
  C15_requested_rate_takes_52_microseconds 128 (by decide) (by decide) (by decide)

/-! ## The four runs of a line -/

/-- C16: every line takes exactly four handler runs. For every line index `n`
in 0..625, starting in SYNC1_START, the runs go through SYNC1_END, then
VID_START and VID_BACKPORCH when `n` is visible or SYNC2_START and SYNC2_END
when it is not; the phase is not SYNC1_START after one, two and three runs and
is SYNC1_START after four. `tvCurrentLine` is `n` before each of the four runs
and afterwards it is `n + 1` for `n ≤ 624` and 0 for `n = 625`. -/
theorem C16_every_line_takes_four_runs (stm32f4 : Bool) (g : Globals) (n : Int)
    (h0 : 0 ≤ n) (h1 : n ≤ 625) :
    run stm32f4 1 (atPhase g TvState.TVS_SYNC1_START n) =
        atPhase g TvState.TVS_SYNC1_END n ∧
      run stm32f4 2 (atPhase g TvState.TVS_SYNC1_START n) =
        atPhase g (if tvIsVideo n then TvState.TVS_VID_START else TvState.TVS_SYNC2_START) n ∧
      run stm32f4 3 (atPhase g TvState.TVS_SYNC1_START n) =
        atPhase g (if tvIsVideo n then TvState.TVS_VID_BACKPORCH else TvState.TVS_SYNC2_END) n ∧
      run stm32f4 4 (atPhase g TvState.TVS_SYNC1_START n) =
        atPhase g TvState.TVS_SYNC1_START (if n ≤ 624 then n + 1 else 0) ∧
      (run stm32f4 1 (atPhase g TvState.TVS_SYNC1_START n)).tvState ≠
        TvState.TVS_SYNC1_START ∧
      (run stm32f4 2 (atPhase g TvState.TVS_SYNC1_START n)).tvState ≠
        TvState.TVS_SYNC1_START ∧
      (run stm32f4 3 (atPhase g TvState.TVS_SYNC1_START n)).tvState ≠
        TvState.TVS_SYNC1_START ∧
      (run stm32f4 0 (atPhase g TvState.TVS_SYNC1_START n)).tvCurrentLine = n ∧
      (run stm32f4 1 (atPhase g TvState.TVS_SYNC1_START n)).tvCurrentLine = n ∧
      (run stm32f4 2 (atPhase g TvState.TVS_SYNC1_START n)).tvCurrentLine = n ∧
      (run stm32f4 3 (atPhase g TvState.TVS_SYNC1_START n)).tvCurrentLine = n ∧
      (0 ≤ (if n ≤ 624 then n + 1 else 0) ∧ (if n ≤ 624 then n + 1 else 0) ≤ 625) := by
  have h3 := run_three_phases stm32f4 g n
  have h4 : run stm32f4 4 (atPhase g TvState.TVS_SYNC1_START n) =
      atPhase g TvState.TVS_SYNC1_START (if n ≤ 624 then n + 1 else 0) := by
    rw [run_four]
    unfold countLine
    by_cases hn : n ≤ 624
    · rw [if_neg (by omega), if_pos hn]
    · rw [if_pos (by omega), if_neg hn]
  refine ⟨h3.1, h3.2.1, h3.2.2, h4, ?_, ?_, ?_, rfl, ?_, ?_, ?_, ?_⟩
  · rw [h3.1]
    simp [atPhase]
  · rw [h3.2.1]
    cases tvIsVideo n <;> simp [atPhase]
  · rw [h3.2.2]
    cases tvIsVideo n <;> simp [atPhase]
  · rw [h3.1]
    rfl
  · rw [h3.2.1]
    rfl
  · rw [h3.2.2]
    rfl
  · split_ifs <;> omega

/-- C16 on the last line, 625. -/
theorem C16_every_line_takes_four_runs_witness :
    run true 1 (atPhase sample TvState.TVS_SYNC1_START 625) =
        atPhase sample TvState.TVS_SYNC1_END 625 ∧
      run true 2 (atPhase sample TvState.TVS_SYNC1_START 625) =
        atPhase sample
          (if tvIsVideo 625 then TvState.TVS_VID_START else TvState.TVS_SYNC2_START) 625 ∧
      run true 3 (atPhase sample TvState.TVS_SYNC1_START 625) =
        atPhase sample
          (if tvIsVideo 625 then TvState.TVS_VID_BACKPORCH else TvState.TVS_SYNC2_END) 625 ∧
      run true 4 (atPhase sample TvState.TVS_SYNC1_START 625) =
        atPhase sample TvState.TVS_SYNC1_START (if (625 : Int) ≤ 624 then 625 + 1 else 0) ∧
      (run true 1 (atPhase sample TvState.TVS_SYNC1_START 625)).tvState ≠
        TvState.TVS_SYNC1_START ∧
      (run true 2 (atPhase sample TvState.TVS_SYNC1_START 625)).tvState ≠
        TvState.TVS_SYNC1_START ∧
      (run true 3 (atPhase sample TvState.TVS_SYNC1_START 625)).tvState ≠
        TvState.TVS_SYNC1_START ∧
      (run true 0 (atPhase sample TvState.TVS_SYNC1_START 625)).tvCurrentLine = 625 ∧
      (run true 1 (atPhase sample TvState.TVS_SYNC1_START 625)).tvCurrentLine = 625 ∧
      (run true 2 (atPhase sample TvState.TVS_SYNC1_START 625)).tvCurrentLine = 625 ∧
      (run true 3 (atPhase sample TvState.TVS_SYNC1_START 625)).tvCurrentLine = 625 ∧
      (0 ≤ (if (625 : Int) ≤ 624 then (625 : Int) + 1 else 0) ∧
        (if (625 : Int) ≤ 624 then (625 : Int) + 1 else 0) ≤ 625) :=
  C16_every_line_takes_four_runs true sample 625 (by decide) (by decide)

/-! ## Nominal line length -/

theorem step_ticksPerLine (stm32f4 : Bool) (g : Globals) :
    (step stm32f4 g).ticksPerLine = g.ticksPerLine := by
  obtain ⟨w, h, pv, ps, pp, m, t, s⟩ := g
  cases s <;> cases hv : tvIsVideo m <;>
    simp [step, TVTIMER_IRQHandler, handlerSwitch, hv]

theorem run_ticksPerLine (stm32f4 : Bool) (k : Nat) (g : Globals) :
    (run stm32f4 k g).ticksPerLine = g.ticksPerLine := by
  induction k generalizing g with
  | zero => rfl
  | succ k ih =>
    simp only [run]
    rw [ih, step_ticksPerLine]

/-- Every handler run stores to the reload register once, the value being
`setTimer` of `handlerDuration`. -/
theorem arrWrites_effects (stm32f4 : Bool) (g : Globals) :
    arrWrites (effects stm32f4 g) = [timerReload g.ticksPerLine (handlerDuration g)] := by
  obtain ⟨w, h, pv, ps, pp, m, t, s⟩ := g
  cases s <;> cases hv : tvIsVideo m <;> cases h1 : tvIsSync1Long m <;>
    cases h2 : tvIsSync2Long m <;>
    simp [effects, TVTIMER_IRQHandler, handlerSwitch, handlerDuration, setTimer, sync_start,
      sync_end, arrWrites, arrWrites_append, arrWrites_vblank_guard, hv, h1, h2]

theorem lineDurations_eq (stm32f4 : Bool) (g : Globals) (n : Int) :
    lineDurations stm32f4 g n =
      (if tvIsVideo n then [5, 8, 44, 7]
        else
          [if tvIsSync1Long n then 27 else 5, if tvIsSync1Long n then 5 else 27,
            if tvIsSync2Long n then 27 else 5, if tvIsSync1Long n then 5 else 27]) := by
  have h3 := run_three_phases stm32f4 g n
  have hr : List.range 4 = [0, 1, 2, 3] := by decide
  unfold lineDurations
  rw [hr]
  simp only [List.map_cons, List.map_nil]
  rw [h3.1, h3.2.1, h3.2.2]
  cases hv : tvIsVideo n <;> cases h1 : tvIsSync1Long n <;> cases h2 : tvIsSync2Long n <;>
    simp [run, handlerDuration, atPhase, hv, h1, h2, PAL_PULSE_SHORT_OFF, PAL_PULSE_LONG_OFF,
      PAL_HALF_LINE, PAL_LINE, PAL_PULSE_SHORT_ON, PAL_PULSE_LONG_ON, PAL_FRONTPORCH,
      PAL_BACKPORCH]

theorem lineDurationSum_eq (stm32f4 : Bool) (g : Globals) (n : Int) :
    lineDurationSum stm32f4 g n = (if n = 2 then 42 else if n = 312 then 86 else 64) := by
  unfold lineDurationSum
  rw [lineDurations_eq]
  have hv := tvIsVideo_iff n
  have h1 := tvIsSync1Long_iff n
  have h2 := tvIsSync2Long_iff n
  cases ev : tvIsVideo n <;> cases e1 : tvIsSync1Long n <;> cases e2 : tvIsSync2Long n <;>
    simp only [ev, e1, e2, Bool.false_eq_true, false_iff, true_iff, not_or, not_and,
      not_le] at hv h1 h2 <;>
    simp <;> split_ifs <;> omega

set_option maxRecDepth 100000 in
theorem closed_pass_sum :
    ((List.range 626).map
      (fun (k : Nat) => if (k : Int) = 2 then 42 else if (k : Int) = 312 then 86 else 64)).sum =
      626 * 64 := by
  decide

/-- C17: the nominal line length as a function of the line index. The four
`setTimer` arguments of the cycle of line `n` are 5, 8, 44, 7 on a visible line
and otherwise 27 or 5, 5 or 27, 27 or 5, 5 or 27 by the sync1, sync1, sync2 and
sync1 predicates; each run stores `setTimer` of its argument to the reload
register. For every line index (in particular 0..625) they sum to 64, except
on line 2, where the sum is 27+5+5+5 = 42, and on line 312, where it is
5+27+27+27 = 86; the total over lines 0..625 is 626*64. -/
theorem C17_line_durations_sum (stm32f4 : Bool) (g : Globals) (n : Int) :
    lineDurations stm32f4 g n =
        (if tvIsVideo n then [5, 8, 44, 7]
          else
            [if tvIsSync1Long n then 27 else 5, if tvIsSync1Long n then 5 else 27,
              if tvIsSync2Long n then 27 else 5, if tvIsSync1Long n then 5 else 27]) ∧
      (List.range 4).map
          (fun k => arrWrites (effects stm32f4 (run stm32f4 k
            (atPhase g TvState.TVS_SYNC1_START n)))) =
        (lineDurations stm32f4 g n).map (fun d => [timerReload g.ticksPerLine d]) ∧
      lineDurationSum stm32f4 g n = (if n = 2 then 42 else if n = 312 then 86 else 64) ∧
      lineDurationSum stm32f4 g 2 = 27 + 5 + 5 + 5 ∧
      lineDurationSum stm32f4 g 312 = 5 + 27 + 27 + 27 ∧
      PAL_LINE = 64 ∧
      passDurationSum stm32f4 g = 626 * 64 := by
  refine ⟨lineDurations_eq stm32f4 g n, ?_, lineDurationSum_eq stm32f4 g n, ?_, ?_, rfl, ?_⟩
  · unfold lineDurations
    rw [List.map_map]
    apply List.map_congr_left
    intro k _
    simp only [Function.comp]
    rw [arrWrites_effects]
    rw [run_ticksPerLine]
    rfl
  · rw [lineDurationSum_eq]
    rfl
  · rw [lineDurationSum_eq]
    rfl
  · unfold passDurationSum
    have hf : (fun k : Nat => lineDurationSum stm32f4 g (k : Int)) =
        (fun k : Nat => if (k : Int) = 2 then 42 else if (k : Int) = 312 then 86 else 64) :=
      funext (fun k => lineDurationSum_eq stm32f4 g (k : Int))
    rw [hf]
    exact closed_pass_sum

/-! ## Invariants of the reachable configurations -/

theorem phaseMatchesLine_step (stm32f4 : Bool) (g : Globals) (h : phaseMatchesLine g) :
    phaseMatchesLine (step stm32f4 g) := by
  obtain ⟨w, ht, pv, ps, pp, m, t, s⟩ := g
  obtain ⟨hvid, hv, hs⟩ := h
  cases s <;> cases ev : tvIsVideo m <;>
    simp [phaseMatchesLine, step, TVTIMER_IRQHandler, handlerSwitch, ev] at hvid hv hs ⊢

theorem phaseMatchesLine_run (stm32f4 : Bool) (k : Nat) (g : Globals)
    (h : phaseMatchesLine g) : phaseMatchesLine (run stm32f4 k g) := by
  induction k generalizing g with
  | zero => exact h
  | succ k ih => exact ih (step stm32f4 g) (phaseMatchesLine_step stm32f4 g h)

/-- C18: in every configuration reached from the initial one
(`tvState = TVS_SYNC1_START`, `tvCurrentLine = 0`) by `k` handler runs,
`tvState` is not `TVS_VID_VIDEO`, it is VID_START or VID_BACKPORCH only while
the current line is visible (the phase is neither of the two, or the line is
visible), and it is SYNC2_START or SYNC2_END only while the current line is not
visible. Both kinds of phase are reached: SYNC2_START after 2 runs, on line 0,
and VID_START after 22 runs, on line 5. -/
theorem C18_phase_matches_line_on_reachable_configurations (stm32f4 : Bool) (g : Globals)
    (k : Nat) :
    (run stm32f4 k (initial g)).tvState ≠ TvState.TVS_VID_VIDEO ∧
      (((run stm32f4 k (initial g)).tvState ≠ TvState.TVS_VID_START ∧
          (run stm32f4 k (initial g)).tvState ≠ TvState.TVS_VID_BACKPORCH) ∨
        tvIsVideo (run stm32f4 k (initial g)).tvCurrentLine = true) ∧
      (((run stm32f4 k (initial g)).tvState ≠ TvState.TVS_SYNC2_START ∧
          (run stm32f4 k (initial g)).tvState ≠ TvState.TVS_SYNC2_END) ∨
        tvIsVideo (run stm32f4 k (initial g)).tvCurrentLine = false) ∧
      run stm32f4 2 (initial g) = atPhase g TvState.TVS_SYNC2_START 0 ∧
      run stm32f4 22 (initial g) = atPhase g TvState.TVS_VID_START 5 := by
  have hi : phaseMatchesLine (initial g) := by
    simp [phaseMatchesLine, initial]
  obtain ⟨h1, h2, h3⟩ := phaseMatchesLine_run stm32f4 k (initial g) hi
  refine ⟨h1, ?_, ?_, ?_, ?_⟩
  · by_cases hs : (run stm32f4 k (initial g)).tvState = TvState.TVS_VID_START ∨
        (run stm32f4 k (initial g)).tvState = TvState.TVS_VID_BACKPORCH
    · exact Or.inr (h2 hs)
    · exact Or.inl (not_or.mp hs)
  · by_cases hs : (run stm32f4 k (initial g)).tvState = TvState.TVS_SYNC2_START ∨
        (run stm32f4 k (initial g)).tvState = TvState.TVS_SYNC2_END
    · exact Or.inr (h3 hs)
    · exact Or.inl (not_or.mp hs)
  · exact (run_three_phases stm32f4 g 0).2.1
  · have h := run_add stm32f4 20 2 (initial g)
    simp only [Nat.reduceAdd] at h
    rw [h, run_lines stm32f4 g 5 (by decide)]
    exact (run_three_phases stm32f4 g 5).2.1

/-! ## The sync level -/

theorem syncLevelAfter_append (pin level : Nat) (a b : List Effect) :
    syncLevelAfter pin level (a ++ b) = syncLevelAfter pin (syncLevelAfter pin level a) b := by
  induction a generalizing level with
  | nil => rfl
  | cons e es ih => cases e <;> simp [syncLevelAfter, ih]

theorem syncLevelAfter_vblank_guard (c : Prop) [Decidable c] (stm32f4 : Bool) (g : Globals)
    (pin level : Nat) :
    syncLevelAfter pin level (if c then tv_start_line_video stm32f4 g else []) = level := by
  split
  · unfold tv_start_line_video
    cases stm32f4 <;> simp only [] <;> split <;> simp [syncLevelAfter]
  · rfl

/-- The sync level after one handler run, phase by phase. -/
theorem stepSync_level (stm32f4 : Bool) (g : Globals) (level : Nat) :
    (stepSync stm32f4 (g, level)).2 =
      (match g.tvState with
        | TvState.TVS_SYNC1_START => 0
        | TvState.TVS_SYNC1_END => 1
        | TvState.TVS_VID_START => level
        | TvState.TVS_VID_VIDEO => 1
        | TvState.TVS_VID_BACKPORCH => level
        | TvState.TVS_SYNC2_START => 0
        | TvState.TVS_SYNC2_END => 1) := by
  obtain ⟨w, h, pv, ps, pp, m, t, s⟩ := g
  cases s <;> cases ev : tvIsVideo m <;> cases e1 : tvIsSync1Long m <;>
    cases e2 : tvIsSync2Long m <;>
    simp [stepSync, effects, TVTIMER_IRQHandler, handlerSwitch, setTimer, sync_start,
      sync_end, syncLevelAfter, syncLevelAfter_append, syncLevelAfter_vblank_guard, ev, e1, e2]

theorem syncLevelMatchesPhase_step (stm32f4 : Bool) (c : Globals × Nat)
    (h : (c.1.tvState = TvState.TVS_VID_START ∨ c.1.tvState = TvState.TVS_VID_BACKPORCH) →
      c.2 = 1) :
    syncLevelMatchesPhase (stepSync stm32f4 c) := by
  obtain ⟨g, level⟩ := c
  have hl := stepSync_level stm32f4 g level
  unfold syncLevelMatchesPhase
  rw [hl]
  obtain ⟨w, ht, pv, ps, pp, m, t, s⟩ := g
  cases s <;> cases ev : tvIsVideo m <;>
    simp [stepSync, step, TVTIMER_IRQHandler, handlerSwitch, ev] at h ⊢ <;> simp [h]

theorem syncLevelMatchesPhase_run (stm32f4 : Bool) (k : Nat) (c : Globals × Nat)
    (h : (c.1.tvState = TvState.TVS_VID_START ∨ c.1.tvState = TvState.TVS_VID_BACKPORCH) →
      c.2 = 1) :
    syncLevelMatchesPhase (runSync stm32f4 (k + 1) c) := by
  induction k generalizing c with
  | zero => exact syncLevelMatchesPhase_step stm32f4 c h
  | succ k ih =>
    have hs := syncLevelMatchesPhase_step stm32f4 c h
    apply ih (stepSync stm32f4 c)
    intro hv
    obtain ⟨hiff, hor⟩ := hs
    rcases hor with h0 | h1
    · have := hiff.mp h0
      rcases hv with hv | hv <;> rcases this with t | t <;> rw [hv] at t <;> cases t
    · exact h1

theorem runSync_fst (stm32f4 : Bool) (k : Nat) (c : Globals × Nat) :
    (runSync stm32f4 k c).1 = run stm32f4 k c.1 := by
  induction k generalizing c with
  | zero => rfl
  | succ k ih =>
    simp only [runSync, run]
    rw [ih]
    rfl

/-- C19: along every execution from the initial configuration, whatever the
level of the sync pin before the first run, after each handler run (the
`k + 1`-th, for every `k`) the sync pin is low if and only if the resulting
`tvState` is SYNC1_END or SYNC2_END, and it is high otherwise. The globals of
the run with the sync level are those of the plain run. -/
theorem C19_sync_low_exactly_in_pulse_end_phases (stm32f4 : Bool) (g : Globals)
    (level : Nat) (k : Nat) :
    ((runSync stm32f4 (k + 1) (initial g, level)).2 = 0 ↔
        ((run stm32f4 (k + 1) (initial g)).tvState = TvState.TVS_SYNC1_END ∨
          (run stm32f4 (k + 1) (initial g)).tvState = TvState.TVS_SYNC2_END)) ∧
      ((runSync stm32f4 (k + 1) (initial g, level)).2 = 0 ∨
        (runSync stm32f4 (k + 1) (initial g, level)).2 = 1) ∧
      (runSync stm32f4 (k + 1) (initial g, level)).1 = run stm32f4 (k + 1) (initial g) := by
  have hi : ((initial g, level).1.tvState = TvState.TVS_VID_START ∨
      (initial g, level).1.tvState = TvState.TVS_VID_BACKPORCH) → (initial g, level).2 = 1 := by
    simp [initial]
  have h := syncLevelMatchesPhase_run stm32f4 k (initial g, level) hi
  have hf := runSync_fst stm32f4 (k + 1) (initial g, level)
  unfold syncLevelMatchesPhase at h
  rw [hf] at h
  exact ⟨h.1, h.2, hf⟩

/-! ## Timer scaling -/

/-- C20: for every `ticksPerLine` in 0..65535 and every duration `d` the
handler passes (5, 7, 8, 27, 44), `setTimer` stores `floor(t*d/64)` to the
reload register: the product `t*d` stays below `2^32`, the quotient is at most
`t` and so below `2^16`, and the stored value does not decrease when `d` is
replaced by a larger duration `e` of the list. -/
theorem C20_timer_scaling_exact (g : Globals) (d e : Nat)
    (ht : g.ticksPerLine ≤ 65535) (hd : d ∈ [5, 7, 8, 27, 44]) (he : e ∈ [5, 7, 8, 27, 44])
    (hde : d ≤ e) :
    setTimer g d = [Effect.writeARR (g.ticksPerLine * d / 64)] ∧
      timerReload g.ticksPerLine d = g.ticksPerLine * d / 64 ∧
      g.ticksPerLine * d < 2 ^ 32 ∧
      g.ticksPerLine * d / 64 ≤ g.ticksPerLine ∧
      g.ticksPerLine * d / 64 < 2 ^ 16 ∧
      timerReload g.ticksPerLine d ≤ timerReload g.ticksPerLine e := by
  have key : ∀ x : Nat, x ∈ [5, 7, 8, 27, 44] →
      timerReload g.ticksPerLine x = g.ticksPerLine * x / 64 ∧ g.ticksPerLine * x < 2 ^ 32 ∧
        g.ticksPerLine * x / 64 ≤ g.ticksPerLine := by
    intro x hx
    simp only [List.mem_cons, List.mem_singleton, List.not_mem_nil, or_false] at hx
    have hx64 : x ≤ 64 := by omega
    have hprod : g.ticksPerLine * x ≤ 65535 * 64 := Nat.mul_le_mul ht hx64
    have hlt : g.ticksPerLine * x < 2 ^ 32 := lt_of_le_of_lt hprod (by decide)
    have hq : g.ticksPerLine * x / 64 ≤ g.ticksPerLine :=
      Nat.div_le_of_le_mul (by rw [Nat.mul_comm 64]; exact Nat.mul_le_mul_left _ hx64)
    refine ⟨?_, hlt, hq⟩
    unfold timerReload
    rw [Nat.mod_eq_of_lt hlt]
    exact Nat.mod_eq_of_lt (by omega)
  obtain ⟨hd1, hd2, hd3⟩ := key d hd
  obtain ⟨he1, _, _⟩ := key e he
  refine ⟨?_, hd1, hd2, hd3, by omega, ?_⟩
  · unfold setTimer
    rw [hd1]
  · rw [hd1, he1]
    exact Nat.div_le_div_right (Nat.mul_le_mul_left _ hde)

/-- C20 for 4608 ticks per line, between the durations 27 and 44. -/
theorem C20_timer_scaling_exact_witness :
    setTimer sample 27 = [Effect.writeARR (sample.ticksPerLine * 27 / 64)] ∧
      timerReload sample.ticksPerLine 27 = sample.ticksPerLine * 27 / 64 ∧
      sample.ticksPerLine * 27 < 2 ^ 32 ∧
      sample.ticksPerLine * 27 / 64 ≤ sample.ticksPerLine ∧
      sample.ticksPerLine * 27 / 64 < 2 ^ 16 ∧
      timerReload sample.ticksPerLine 27 ≤ timerReload sample.ticksPerLine 44 :=
  C20_timer_scaling_exact sample 27 44 (by decide) (by decide) (by decide) (by decide)

end TV
